import Mathlib

set_option maxRecDepth 40000

set_option allowUnsafeReducibility true

attribute [local semireducible] Rat.add Rat.sub Rat.mul Rat.div Rat.inv Rat.neg

/-!
Verification of the v10-scalping-bot core against its design document.

The development shallowly embeds the three subsystems the claims are about:

* `src/websocket_client.py` : the protocol client (rate limiter, correlation
  table, connection-drop handling);
* `src/risk_manager.py`     : the risk gate (scoring pipeline, decision
  policy, auto-pause, statistics recording);
* `src/trade_executor.py`   : the order lifecycle manager (placement,
  push reconciliation, expiry sweep).

Python floats are modelled as exact rationals (`ℚ`), wall-clock reads as an
explicit `now : ℚ` argument (one reading per call), dictionaries as
association lists keyed by their ids, and asyncio futures by the ids of the
requests they belong to.  String messages that only render enumerated
conditions are modelled as inductive tags carrying the interpolated values.
-/

/-! ## utils.py : RateLimiter -/

/-- Embeds `utils.RateLimiter.__init__`: sliding-window limiter state.
`calls` is the list of recorded call timestamps. -/
structure RateLimiter where
  max_calls : Nat
  time_window : ℚ
  calls : List ℚ
deriving DecidableEq

/-- Embeds `RateLimiter.can_proceed`: prunes timestamps outside the window
(the Python method reassigns `self.calls`, so the pruned state is returned
too) and reports whether fewer than `max_calls` remain. -/
def RateLimiter.can_proceed (rl : RateLimiter) (now : ℚ) : Bool × RateLimiter :=
  let pruned := rl.calls.filter (fun call_time => now - call_time < rl.time_window)
  (pruned.length < rl.max_calls, { rl with calls := pruned })

/-- Embeds `RateLimiter.record_call`: appends the current timestamp. -/
def RateLimiter.record_call (rl : RateLimiter) (now : ℚ) : RateLimiter :=
  { rl with calls := rl.calls ++ [now] }

/-! ## websocket_client.py : DerivWebSocketClient -/

/-- Embeds the request/correlation-relevant state of `DerivWebSocketClient`
(plus `ConnectionState`).  `pending_requests` holds the correlation ids of
the registered, not yet completed futures (`self.pending_requests` keys);
`hasWebsocket` models `self.websocket is not None`. -/
structure ClientState where
  connected : Bool
  authenticated : Bool
  hasWebsocket : Bool
  request_id_counter : Nat
  pending_requests : List Nat
  rate_limiter : RateLimiter
deriving DecidableEq

/-- Embeds the `websockets.exceptions.ConnectionClosed` handler of
`DerivWebSocketClient._message_listener` (the point where a connection drop
is detected): it only records `self.state.connected = False`.  In
particular it does not touch `self.pending_requests`. -/
def DerivWebSocketClient.onConnectionClosed (s : ClientState) : ClientState :=
  { s with connected := false }

/-- Embeds `DerivWebSocketClient.disconnect`: clears the connection flags,
drops the websocket, cancels every pending future (the returned list is the
set of cancelled correlation ids) and empties the pending table. -/
def DerivWebSocketClient.disconnect (s : ClientState) : ClientState × List Nat :=
  ({ s with connected := false, authenticated := false,
            hasWebsocket := false, pending_requests := [] },
   s.pending_requests)

/-- Result of one `send_request` call.  `notConnected` and `rateLimited`
are the two early-return-`None` paths of the Python method (the second
after a fixed 1-second sleep); `sent req_id` is the path that registered a
`PendingRequest` and wrote the frame. -/
inductive SendOutcome where
  | notConnected
  | rateLimited
  | sent (req_id : Nat)
deriving DecidableEq

/-- Embeds `DerivWebSocketClient.send_request` up to the point where the
caller starts awaiting the response future: the connectivity guard, the
rate-limit guard (which returns `None` after sleeping 1 s, sending
nothing), correlation-id allocation, registration of the pending future and
recording of the rate-limiter call. -/
def DerivWebSocketClient.send_request (s : ClientState) (now : ℚ) :
    SendOutcome × ClientState :=
  if ¬ s.connected ∨ ¬ s.hasWebsocket then
    (.notConnected, s)
  else if ¬ (s.rate_limiter.can_proceed now).1 then
    (.rateLimited, { s with rate_limiter := (s.rate_limiter.can_proceed now).2 })
  else
    (.sent (s.request_id_counter + 1),
     { s with
        request_id_counter := s.request_id_counter + 1,
        pending_requests := s.pending_requests ++ [s.request_id_counter + 1],
        rate_limiter := ((s.rate_limiter.can_proceed now).2).record_call now })

/-- Embeds the `req_id` branch of `DerivWebSocketClient._handle_message`:
a frame carrying a known correlation id pops and completes exactly the
matching future (the second component reports the id it completed); any
other frame leaves the pending table untouched and completes nothing. -/
def DerivWebSocketClient.handle_message (s : ClientState) (req_id : Nat) :
    ClientState × Option Nat :=
  if req_id ∈ s.pending_requests then
    ({ s with pending_requests := s.pending_requests.erase req_id }, some req_id)
  else
    (s, none)

/-- Embeds the `asyncio.TimeoutError` branch of `send_request`: the timed
out request is popped from the pending table (`pop(req_id, None)`), a
no-op when the id is no longer registered. -/
def DerivWebSocketClient.onRequestTimeout (s : ClientState) (req_id : Nat) :
    ClientState :=
  { s with pending_requests := s.pending_requests.erase req_id }

/-! ### Trace machine for interleaved requests (claim C8) -/

/-- One observable event at the client: a `send_request` call at time
`now`, the arrival of a response frame carrying correlation id `rid`, or
the timeout of the request with id `rid`. -/
inductive WsEvent where
  | sendEv (now : ℚ)
  | frameEv (rid : Nat)
  | timeoutEv (rid : Nat)

/-- Client state instrumented with the observable history: the correlation
ids allocated by `send_request` in order, and the completions so far
(`(id, true)` for completion by a response frame, `(id, false)` for a
timeout). -/
structure WsTrace where
  client : ClientState
  sentIds : List Nat
  done : List (Nat × Bool)

/-- A freshly connected, authenticated client as built by
`DerivWebSocketClient.__init__` and `connect` (counter 0, empty pending
table, 30-per-60-seconds limiter). -/
def initClient : ClientState :=
  { connected := true, authenticated := true, hasWebsocket := true,
    request_id_counter := 0, pending_requests := [],
    rate_limiter := { max_calls := 30, time_window := 60, calls := [] } }

/-- Initial instrumented trace state. -/
def initTrace : WsTrace :=
  { client := initClient, sentIds := [], done := [] }

/-- One step of the instrumented client: dispatches the event to
`send_request`, `handle_message` or `onRequestTimeout` and logs the
observable outcome. -/
def stepEvent (ts : WsTrace) (e : WsEvent) : WsTrace :=
  match e with
  | .sendEv now =>
    match DerivWebSocketClient.send_request ts.client now with
    | (.sent rid, c2) =>
      { client := c2, sentIds := ts.sentIds ++ [rid], done := ts.done }
    | (_, c2) => { ts with client := c2 }
  | .frameEv rid =>
    match DerivWebSocketClient.handle_message ts.client rid with
    | (c2, some r) =>
      { client := c2, sentIds := ts.sentIds, done := ts.done ++ [(r, true)] }
    | (c2, none) => { ts with client := c2 }
  | .timeoutEv rid =>
    if rid ∈ ts.client.pending_requests then
      { client := DerivWebSocketClient.onRequestTimeout ts.client rid,
        sentIds := ts.sentIds, done := ts.done ++ [(rid, false)] }
    else
      { ts with client := DerivWebSocketClient.onRequestTimeout ts.client rid }

/-- Runs a whole event sequence from the fresh client. -/
def runTrace (es : List WsEvent) : WsTrace :=
  es.foldl stepEvent initTrace

/-! ## risk_manager.py : RiskManager -/

/-- Embeds `signal_generator.SignalType`. -/
inductive SignalType where
  | CALL
  | PUT
deriving DecidableEq

/-- Embeds the fields of `signal_generator.TradingSignal` consumed by the
risk manager and the trade executor (confidence, duration, entry price,
direction); the remaining fields are reporting metadata. -/
structure TradingSignal where
  signal_type : SignalType
  confidence : ℚ
  duration : Nat
  entry_price : ℚ
deriving DecidableEq

/-- Embeds `risk_manager.RiskLevel`. -/
inductive RiskLevel where
  | LOW
  | MODERATE
  | HIGH
  | EXTREME
deriving DecidableEq

/-- Embeds `risk_manager.TradeDecision`. -/
inductive TradeDecision where
  | APPROVED
  | REJECTED
  | REDUCED
deriving DecidableEq

/-- Exceptions the assessment pipeline can raise: the only deterministic
raise site is the `stake_percentage` division in `_assess_balance_risk`
when `current_balance` is zero (`ZeroDivisionError`). -/
inductive RiskError where
  | zeroDivision
deriving DecidableEq

/-- The pause reasons built by `_check_auto_pause_conditions`, as tags
carrying the interpolated values of the corresponding f-strings. -/
inductive PauseReason where
  | consecutiveLosses (n : Nat)
  | dailyLoss (amount : ℚ)
  | drawdown (pct : ℚ)
deriving DecidableEq

/-- The rejection-reason strings of `risk_manager.py`, as tags carrying
their interpolated values (`none` in `tradingPaused` models the initial
empty `pause_reason` string). -/
inductive RejectReason where
  | tradingPaused (r : Option PauseReason)
  | balanceTooLow (bal floor : ℚ)
  | dailyLossLimit (amount : ℚ)
  | dailyTradeLimit (n : Nat)
  | consecutiveLossLimit (n : Nat)
  | hourlyTradeLimit (n : Nat)
  | drawdownExceeded (pct : ℚ)
  | riskScoreTooHigh
  | assessmentError (e : RiskError)
deriving DecidableEq

/-- The warning strings of the assessment helpers, as tags. -/
inductive RiskWarning where
  | balanceNearMin
  | highStakePct (pct : ℚ)
  | nearDailyLossLimit
  | sixtyPctDailyLossUsed
  | nearDailyTradeLimit
  | oneLossFromLimit
  | nearConsecutiveLimit
  | nearHourlyLimit
  | highDrawdown (pct : ℚ)
  | moderateDrawdown (pct : ℚ)
  | lowConfidence (c : ℚ)
  | veryShortDuration
deriving DecidableEq

/-- Embeds `risk_manager.TradeRisk`. -/
structure TradeRisk where
  decision : TradeDecision
  recommended_stake : ℚ
  risk_level : RiskLevel
  risk_score : ℚ
  rejection_reasons : List RejectReason
  warnings : List RiskWarning
deriving DecidableEq

/-- Embeds `risk_manager.TradingStats` (the `hourly_trades` dataclass
field exists in the source but is never consulted; the manager uses its
own `hourly_trade_count`). -/
structure TradingStats where
  total_trades : Nat := 0
  winning_trades : Nat := 0
  losing_trades : Nat := 0
  consecutive_losses : Nat := 0
  consecutive_wins : Nat := 0
  max_consecutive_losses : Nat := 0
  total_profit_loss : ℚ := 0
  daily_profit_loss : ℚ := 0
  hourly_trades : Nat := 0
  last_trade_time : ℚ := 0
deriving DecidableEq

/-- Embeds the fields of `config.settings.RiskConfig` read by the risk
manager. -/
structure RiskConfig where
  max_daily_loss : ℚ
  max_consecutive_losses : Nat
  max_trades_per_hour : Nat
  max_trades_per_day : Nat
  cooldown_minutes : ℚ
  min_balance_to_trade : ℚ
  max_drawdown_percent : ℚ
deriving DecidableEq

/-- Embeds the field of `config.settings.TradingConfig` read by the risk
manager and executor (`max_stake`); the other fields configure the
excluded indicator layer. -/
structure TradingConfig where
  max_stake : ℚ
deriving DecidableEq

/-- Mutable state of a `RiskManager` instance. -/
structure RiskState where
  risk_config : RiskConfig
  trading_config : TradingConfig
  stats : TradingStats
  initial_balance : ℚ
  current_balance : ℚ
  peak_balance : ℚ
  daily_start_balance : ℚ
  daily_reset_time : ℚ
  hourly_trade_count : Nat
  hourly_reset_time : ℚ
  trading_paused : Bool
  pause_reason : Option PauseReason
  pause_until : ℚ
deriving DecidableEq

/-- Floor of a rational, computed on its reduced numerator and
denominator (kernel-computable). -/
def ratFloor (q : ℚ) : ℤ :=
  Int.fdiv q.num (q.den : ℤ)

/-- Truncation toward zero, embedding the Python `int()` conversion. -/
def ratTrunc (q : ℚ) : ℤ :=
  Int.tdiv q.num (q.den : ℤ)

/-- Round-half-to-even to the nearest integer, embedding the Python
built-in `round` (floats are modelled as exact rationals). -/
def roundHalfEven (q : ℚ) : ℤ :=
  let f := ratFloor q
  let r := q - (f : ℚ)
  if r < 1/2 then f
  else if (1 : ℚ)/2 < r then f + 1
  else if f % 2 = 0 then f else f + 1

/-- Embeds `round(x, 2)`. -/
def roundTo2 (q : ℚ) : ℚ := (roundHalfEven (q * 100) : ℚ) / 100

/-- Embeds `round(x, 1)`. -/
def roundTo1 (q : ℚ) : ℚ := (roundHalfEven (q * 10) : ℚ) / 10

/-- Embeds `RiskManager._get_daily_reset_time` at an explicit clock value:
the next midnight UTC boundary, i.e. the next multiple of 86400 seconds
strictly after `now`. -/
def nextDailyReset (now : ℚ) : ℚ := ((ratFloor (now / 86400) + 1 : ℤ) : ℚ) * 86400

/-- Embeds `RiskManager._get_hourly_reset_time`: the next top-of-hour
boundary strictly after `now`. -/
def nextHourlyReset (now : ℚ) : ℚ := ((ratFloor (now / 3600) + 1 : ℤ) : ℚ) * 3600

/-- Embeds `RiskManager._update_peak_balance`. -/
def RiskManager.update_peak_balance (s : RiskState) : RiskState :=
  if s.current_balance > s.peak_balance then
    { s with peak_balance := s.current_balance }
  else s

/-- Embeds `RiskManager._check_daily_reset`. -/
def RiskManager.check_daily_reset (s : RiskState) (now : ℚ) : RiskState :=
  if now ≥ s.daily_reset_time then
    { s with stats := { s.stats with daily_profit_loss := 0 },
             daily_start_balance := s.current_balance,
             daily_reset_time := nextDailyReset now }
  else s

/-- Embeds `RiskManager._check_hourly_reset`. -/
def RiskManager.check_hourly_reset (s : RiskState) (now : ℚ) : RiskState :=
  if now ≥ s.hourly_reset_time then
    { s with hourly_trade_count := 0, hourly_reset_time := nextHourlyReset now }
  else s

/-- Embeds `RiskManager._assess_balance_risk`.  The Python body first runs
the minimum-balance checks, then computes
`stake_percentage = max_stake / current_balance * 100`, which raises
`ZeroDivisionError` when the balance is zero. -/
def RiskManager.assess_balance_risk (rc : RiskConfig) (tc : TradingConfig) (bal : ℚ) :
    Except RiskError (ℚ × List RiskWarning × List RejectReason) :=
  let base : ℚ × List RiskWarning × List RejectReason :=
    if bal < rc.min_balance_to_trade then
      (50, [], [.balanceTooLow bal rc.min_balance_to_trade])
    else if bal < rc.min_balance_to_trade * (3/2) then
      (20, [.balanceNearMin], [])
    else (0, [], [])
  if bal = 0 then .error .zeroDivision
  else
    let stake_percentage := tc.max_stake / bal * 100
    if stake_percentage > 10 then
      .ok (base.1 + min (stake_percentage - 10) 25,
           base.2.1 ++ [.highStakePct stake_percentage], base.2.2)
    else .ok base

/-- Embeds `RiskManager._assess_daily_risk`; `_get_daily_trade_count` is
the source's documented placeholder returning `stats.total_trades`. -/
def RiskManager.assess_daily_risk (rc : RiskConfig) (stats : TradingStats) :
    ℚ × List RiskWarning × List RejectReason :=
  let pnl := stats.daily_profit_loss
  let part1 : ℚ × List RiskWarning × List RejectReason :=
    if |pnl| ≥ rc.max_daily_loss then
      if pnl < 0 then (50, [], [.dailyLossLimit |pnl|]) else (0, [], [])
    else if |pnl| ≥ rc.max_daily_loss * (8/10) then (30, [.nearDailyLossLimit], [])
    else if |pnl| ≥ rc.max_daily_loss * (6/10) then (15, [.sixtyPctDailyLossUsed], [])
    else (0, [], [])
  let daily_trades := stats.total_trades
  let part2 : ℚ × List RiskWarning × List RejectReason :=
    if daily_trades ≥ rc.max_trades_per_day then
      (30, [], [.dailyTradeLimit daily_trades])
    else if (daily_trades : ℚ) ≥ (rc.max_trades_per_day : ℚ) * (9/10) then
      (15, [.nearDailyTradeLimit], [])
    else (0, [], [])
  (part1.1 + part2.1, part1.2.1 ++ part2.2.1, part1.2.2 ++ part2.2.2)

/-- Embeds `RiskManager._assess_consecutive_risk` (the `max - 1` and
`max - 2` thresholds are Python ints, hence compared over ℤ). -/
def RiskManager.assess_consecutive_risk (rc : RiskConfig) (stats : TradingStats) :
    ℚ × List RiskWarning × List RejectReason :=
  if stats.consecutive_losses ≥ rc.max_consecutive_losses then
    (40, [], [.consecutiveLossLimit stats.consecutive_losses])
  else if (stats.consecutive_losses : ℤ) ≥ (rc.max_consecutive_losses : ℤ) - 1 then
    (25, [.oneLossFromLimit], [])
  else if (stats.consecutive_losses : ℤ) ≥ (rc.max_consecutive_losses : ℤ) - 2 then
    (15, [.nearConsecutiveLimit], [])
  else (0, [], [])

/-- Embeds `RiskManager._assess_frequency_risk`. -/
def RiskManager.assess_frequency_risk (rc : RiskConfig) (hourly_trade_count : Nat) :
    ℚ × List RiskWarning × List RejectReason :=
  if hourly_trade_count ≥ rc.max_trades_per_hour then
    (25, [], [.hourlyTradeLimit hourly_trade_count])
  else if (hourly_trade_count : ℚ) ≥ (rc.max_trades_per_hour : ℚ) * (9/10) then
    (10, [.nearHourlyLimit], [])
  else (0, [], [])

/-- Embeds `RiskManager._assess_drawdown_risk`. -/
def RiskManager.assess_drawdown_risk (rc : RiskConfig) (peak cur : ℚ) :
    ℚ × List RiskWarning × List RejectReason :=
  if peak > 0 then
    let dd := (peak - cur) / peak * 100
    if dd ≥ rc.max_drawdown_percent then (50, [], [.drawdownExceeded dd])
    else if dd ≥ rc.max_drawdown_percent * (8/10) then (30, [.highDrawdown dd], [])
    else if dd ≥ rc.max_drawdown_percent * (6/10) then (15, [.moderateDrawdown dd], [])
    else (0, [], [])
  else (0, [], [])

/-- Embeds `RiskManager._assess_signal_risk`. -/
def RiskManager.assess_signal_risk (sig : TradingSignal) : ℚ × List RiskWarning :=
  let p1 : ℚ × List RiskWarning :=
    if sig.confidence < 7/10 then
      ((7/10 - sig.confidence) * 30,
       if sig.confidence < 6/10 then [.lowConfidence sig.confidence] else [])
    else (0, [])
  let p2 : ℚ × List RiskWarning :=
    if sig.duration ≤ 3 then (5, [.veryShortDuration]) else (0, [])
  (p1.1 + p2.1, p1.2 ++ p2.2)

/-- Embeds steps 2 to 7 of `RiskManager.assess_trade_risk`: accumulates
the six contributions into the summed risk score, the warning list and
the rejection-reason list, propagating the one possible exception. -/
def RiskManager.riskPipeline (s : RiskState) (sig : TradingSignal) :
    Except RiskError (ℚ × List RiskWarning × List RejectReason) :=
  match RiskManager.assess_balance_risk s.risk_config s.trading_config s.current_balance with
  | .error e => .error e
  | .ok b =>
    let d := RiskManager.assess_daily_risk s.risk_config s.stats
    let c := RiskManager.assess_consecutive_risk s.risk_config s.stats
    let f := RiskManager.assess_frequency_risk s.risk_config s.hourly_trade_count
    let dd := RiskManager.assess_drawdown_risk s.risk_config s.peak_balance s.current_balance
    let sg := RiskManager.assess_signal_risk sig
    .ok (b.1 + d.1 + c.1 + f.1 + dd.1 + sg.1,
         b.2.1 ++ d.2.1 ++ c.2.1 ++ f.2.1 ++ dd.2.1 ++ sg.2,
         b.2.2 ++ d.2.2 ++ c.2.2 ++ f.2.2 ++ dd.2.2)

/-- Embeds the decision block of `assess_trade_risk` (lines 163-199):
given the accumulated score, warnings and rejection reasons, produce the
`TradeRisk` (with the source's 2-decimal stake and 1-decimal score
rounding). -/
def RiskManager.decisionPolicy (tc : TradingConfig) (risk_score : ℚ)
    (warnings : List RiskWarning) (rejection_reasons : List RejectReason) : TradeRisk :=
  if rejection_reasons ≠ [] then
    { decision := .REJECTED, recommended_stake := roundTo2 0, risk_level := .EXTREME,
      risk_score := roundTo1 risk_score,
      rejection_reasons := rejection_reasons, warnings := warnings }
  else
    let stake_multiplier := max (1/10) (1 - risk_score / 100)
    let recommended_stake := min (tc.max_stake * stake_multiplier) tc.max_stake
    if risk_score ≥ 75 then
      { decision := .REJECTED, recommended_stake := roundTo2 0, risk_level := .EXTREME,
        risk_score := roundTo1 risk_score,
        rejection_reasons := rejection_reasons ++ [.riskScoreTooHigh], warnings := warnings }
    else if risk_score ≥ 50 then
      { decision := if stake_multiplier < 8/10 then .REDUCED else .APPROVED,
        recommended_stake := roundTo2 recommended_stake, risk_level := .HIGH,
        risk_score := roundTo1 risk_score,
        rejection_reasons := rejection_reasons, warnings := warnings }
    else if risk_score ≥ 25 then
      { decision := if stake_multiplier < 9/10 then .REDUCED else .APPROVED,
        recommended_stake := roundTo2 recommended_stake, risk_level := .MODERATE,
        risk_score := roundTo1 risk_score,
        rejection_reasons := rejection_reasons, warnings := warnings }
    else
      { decision := .APPROVED,
        recommended_stake := roundTo2 recommended_stake, risk_level := .LOW,
        risk_score := roundTo1 risk_score,
        rejection_reasons := rejection_reasons, warnings := warnings }

/-- Embeds `RiskManager._resume_trading`. -/
def RiskManager.resume_trading (s : RiskState) : RiskState :=
  { s with trading_paused := false, pause_reason := none, pause_until := 0 }

/-- The state updates `assess_trade_risk` performs before its pause check:
setting `current_balance`, `_update_peak_balance`, `_check_daily_reset`,
`_check_hourly_reset`. -/
def RiskManager.preAssess (s : RiskState) (current_balance now : ℚ) : RiskState :=
  RiskManager.check_hourly_reset
    (RiskManager.check_daily_reset
      (RiskManager.update_peak_balance { s with current_balance := current_balance }) now) now

/-- The error result built by the `except` clause of `assess_trade_risk`. -/
def RiskManager.errorRisk (e : RiskError) : TradeRisk :=
  { decision := .REJECTED, recommended_stake := 0, risk_level := .EXTREME,
    risk_score := 100, rejection_reasons := [.assessmentError e], warnings := [] }

/-- Embeds `RiskManager.assess_trade_risk` at one clock reading `now`:
pre-step mutations, pause gate (returning the pause rejection, or resuming
an expired pause), then the pipeline and decision block, with the
`except` clause mapping a raised exception to the catch-all rejection.
Returns the `TradeRisk` and the mutated manager state. -/
def RiskManager.assess_trade_risk (s : RiskState) (sig : TradingSignal)
    (current_balance now : ℚ) : TradeRisk × RiskState :=
  let s4 := RiskManager.preAssess s current_balance now
  if s4.trading_paused then
    if now < s4.pause_until then
      ({ decision := .REJECTED, recommended_stake := 0, risk_level := .EXTREME,
         risk_score := 100,
         rejection_reasons := [.tradingPaused s4.pause_reason], warnings := [] }, s4)
    else
      let s5 := RiskManager.resume_trading s4
      match RiskManager.riskPipeline s5 sig with
      | .ok (score, ws, rs) => (RiskManager.decisionPolicy s5.trading_config score ws rs, s5)
      | .error e => (RiskManager.errorRisk e, s5)
  else
    match RiskManager.riskPipeline s4 sig with
    | .ok (score, ws, rs) => (RiskManager.decisionPolicy s4.trading_config score ws rs, s4)
    | .error e => (RiskManager.errorRisk e, s4)

/-- Embeds `RiskManager._pause_trading`. -/
def RiskManager.pause_trading (s : RiskState) (reason : PauseReason)
    (duration_seconds now : ℚ) : RiskState :=
  { s with trading_paused := true, pause_reason := some reason,
           pause_until := now + duration_seconds }

/-- The consecutive-loss clause of `_check_auto_pause_conditions`
(cooldown `cooldown_minutes * 60` seconds). -/
def RiskManager.pauseStepConsecutive (s : RiskState) (now : ℚ) : RiskState :=
  if s.stats.consecutive_losses ≥ s.risk_config.max_consecutive_losses then
    RiskManager.pause_trading s (.consecutiveLosses s.stats.consecutive_losses)
      (s.risk_config.cooldown_minutes * 60) now
  else s

/-- The daily-loss clause of `_check_auto_pause_conditions` (duration
`int(daily_reset_time - now)` seconds, from
`_get_seconds_until_daily_reset`); it overwrites any pause set by the
consecutive-loss clause just before. -/
def RiskManager.pauseStepDaily (s : RiskState) (now : ℚ) : RiskState :=
  if |s.stats.daily_profit_loss| ≥ s.risk_config.max_daily_loss ∧
      s.stats.daily_profit_loss < 0 then
    RiskManager.pause_trading s (.dailyLoss |s.stats.daily_profit_loss|)
      ((ratTrunc (s.daily_reset_time - now) : ℚ)) now
  else s

/-- The drawdown clause of `_check_auto_pause_conditions` (guarded by
`peak_balance > 0`; cooldown `cooldown_minutes * 60`). -/
def RiskManager.pauseStepDrawdown (s : RiskState) (now : ℚ) : RiskState :=
  if s.peak_balance > 0 then
    if (s.peak_balance - s.current_balance) / s.peak_balance * 100
        ≥ s.risk_config.max_drawdown_percent then
      RiskManager.pause_trading s
        (.drawdown ((s.peak_balance - s.current_balance) / s.peak_balance * 100))
        (s.risk_config.cooldown_minutes * 60) now
    else s
  else s

/-- Embeds `RiskManager._check_auto_pause_conditions`: the consecutive-loss
check, then the daily-loss check, then the drawdown check, in the order
the source runs them (each later pause overwriting the earlier one). -/
def RiskManager.check_auto_pause_conditions (s : RiskState) (now : ℚ) : RiskState :=
  RiskManager.pauseStepDrawdown
    (RiskManager.pauseStepDaily (RiskManager.pauseStepConsecutive s now) now) now

/-- Embeds `RiskManager.record_trade_result` at one clock reading:
statistics updates, win/loss streak bookkeeping, then
`_check_auto_pause_conditions` (persistence is I/O and outside the
model). -/
def RiskManager.record_trade_result (s : RiskState) (profit_loss : ℚ)
    (was_winner : Bool) (now : ℚ) : RiskState :=
  let st0 := s.stats
  let st1 := { st0 with
    total_trades := st0.total_trades + 1,
    total_profit_loss := st0.total_profit_loss + profit_loss,
    daily_profit_loss := st0.daily_profit_loss + profit_loss,
    last_trade_time := now }
  let st2 :=
    if was_winner then
      { st1 with winning_trades := st1.winning_trades + 1,
                 consecutive_wins := st1.consecutive_wins + 1,
                 consecutive_losses := 0 }
    else
      let cl := st1.consecutive_losses + 1
      { st1 with losing_trades := st1.losing_trades + 1,
                 consecutive_losses := cl,
                 consecutive_wins := 0,
                 max_consecutive_losses :=
                   if cl > st1.max_consecutive_losses then cl
                   else st1.max_consecutive_losses }
  let s2 := { s with stats := st2, hourly_trade_count := s.hourly_trade_count + 1 }
  RiskManager.check_auto_pause_conditions s2 now

/-! ## trade_executor.py : TradeExecutor -/

/-- Embeds `trade_executor.TradeStatus`. -/
inductive TradeStatus where
  | PENDING
  | ACTIVE
  | WON
  | LOST
  | CANCELLED
  | ERROR
deriving DecidableEq

/-- Embeds `trade_executor.ExecutionResult`. -/
inductive ExecutionResult where
  | SUCCESS
  | FAILED
  | REJECTED
  | ERROR
deriving DecidableEq

/-- Embeds `trade_executor.Trade`.  `trade_id` is the value of the
executor's `trade_counter` at creation (the Python id string interpolates
this counter together with a timestamp; the counter alone already makes it
unique).  `contract_type` holds `signal.signal_type.value`. -/
structure Trade where
  trade_id : Nat
  signal : TradingSignal
  contract_type : SignalType
  stake : ℚ
  duration : Nat
  entry_price : ℚ
  entry_time : ℚ
  status : TradeStatus
  contract_id : Option Nat := none
  exit_price : Option ℚ := none
  exit_time : Option ℚ := none
  profit_loss : Option ℚ := none
  payout : Option ℚ := none
  barrier : Option ℚ := none
deriving DecidableEq

/-- The fields of a successful `buy` response consumed by
`execute_trade` (each read with `.get`, hence optional). -/
structure BuyResult where
  contract_id : Option Nat
  payout : Option ℚ
  barrier : Option ℚ
deriving DecidableEq

/-- Embeds `trade_executor.ExecutionReport` (the message string and the
latency measurement are reporting-only). -/
structure ExecutionReport where
  result : ExecutionResult
  trade : Option Trade
  risk_assessment : Option TradeRisk
deriving DecidableEq

/-- Mutable state of a `TradeExecutor` together with its risk manager.
`active_trades` models the id-keyed dict as a list (insertion order);
`contract_subscriptions` maps venue contract ids to local trade ids;
`recorded_results` logs every `risk_manager.record_trade_result` call
`(profit_loss, was_winner)` the executor makes, in order. -/
structure ExecutorState where
  risk : RiskState
  active_trades : List Trade
  completed_trades : List Trade
  trade_counter : Nat
  total_executions : Nat
  successful_executions : Nat
  failed_executions : Nat
  rejected_executions : Nat
  contract_subscriptions : List (Nat × Nat)
  recorded_results : List (ℚ × Bool)
deriving DecidableEq

/-- A `proposal_open_contract` push as read by `handle_contract_update`
and `_finalize_trade` (every field accessed with `.get`). -/
structure ContractPush where
  contract_id : Option Nat
  current_spot : Option ℚ
  is_sold : Bool
  sell_spot : Option ℚ
  sell_price : Option ℚ
  buy_price : Option ℚ
deriving DecidableEq

/-- Embeds `TradeExecutor.execute_trade` at one clock reading.  The
transport outcome of `_place_order` is the `placeResult` parameter
(`none` is both the invalid-contract-type guard and a failed or empty
`buy_contract` answer; with `SignalType` closed over CALL and PUT the
mapping itself never fails).  On placement failure the trade is marked
ERROR and returned in the report only: the source adds it to neither
`active_trades` nor `completed_trades` and records nothing with the risk
manager. -/
def TradeExecutor.execute_trade (st : ExecutorState) (sig : TradingSignal)
    (current_balance now : ℚ) (placeResult : Option BuyResult) :
    ExecutionReport × ExecutorState :=
  let ra_rs := RiskManager.assess_trade_risk st.risk sig current_balance now
  let risk_assessment := ra_rs.1
  let st0 := { st with risk := ra_rs.2 }
  if risk_assessment.decision = .REJECTED then
    ({ result := .REJECTED, trade := none, risk_assessment := some risk_assessment },
     { st0 with rejected_executions := st0.rejected_executions + 1 })
  else
    let trade_id := st0.trade_counter + 1
    let trade : Trade := {
      trade_id := trade_id, signal := sig, contract_type := sig.signal_type,
      stake := risk_assessment.recommended_stake, duration := sig.duration,
      entry_price := sig.entry_price, entry_time := now, status := .PENDING }
    let st1 := { st0 with trade_counter := trade_id }
    match placeResult with
    | some res =>
      let trade1 :=
        { trade with
            status := TradeStatus.ACTIVE, contract_id := res.contract_id,
            payout := res.payout, barrier := res.barrier }
      let st2 := { st1 with
        active_trades := st1.active_trades ++ [trade1],
        contract_subscriptions :=
          match res.contract_id with
          | some cid =>
            if cid ≠ 0 then st1.contract_subscriptions ++ [(cid, trade_id)]
            else st1.contract_subscriptions
          | none => st1.contract_subscriptions,
        successful_executions := st1.successful_executions + 1,
        total_executions := st1.total_executions + 1 }
      ({ result := .SUCCESS, trade := some trade1,
         risk_assessment := some risk_assessment }, st2)
    | none =>
      let trade1 := { trade with status := .ERROR }
      let st2 := { st1 with failed_executions := st1.failed_executions + 1,
                            total_executions := st1.total_executions + 1 }
      ({ result := .FAILED, trade := some trade1,
         risk_assessment := some risk_assessment }, st2)

/-- Embeds `TradeExecutor._finalize_trade`.  The `trade` argument is the
shared object already holding any `current_spot` update.  When the push
has no `sell_spot` and the trade has no exit price yet, `float(None)`
raises and the surrounding `except` leaves the trade active with only its
exit time set; otherwise P&L is `sell_price - buy_price` (defaults 0 and
`trade.stake`), the status becomes WON on strictly positive P&L and LOST
otherwise, the trade moves from the active dict to the completed list,
the contract mapping entry is deleted and the outcome is recorded with the
risk manager. -/
def TradeExecutor.finalize_trade (st : ExecutorState) (trade : Trade)
    (info : ContractPush) (now : ℚ) : ExecutorState :=
  let exitOpt := match info.sell_spot with
    | some v => some v
    | none => trade.exit_price
  match exitOpt with
  | none =>
    let upd := fun (u : Trade) =>
      if u.trade_id = trade.trade_id then { trade with exit_time := some now } else u
    { st with active_trades := st.active_trades.map upd }
  | some xp =>
    let sell_price := info.sell_price.getD 0
    let buy_price := info.buy_price.getD trade.stake
    let pnl := sell_price - buy_price
    let was_winner := decide (pnl > 0)
    let trade1 :=
      { trade with
          exit_time := some now, exit_price := some xp,
          profit_loss := some pnl,
          status := if pnl > 0 then TradeStatus.WON else TradeStatus.LOST }
    { st with
      active_trades := st.active_trades.filter (fun u => u.trade_id ≠ trade.trade_id),
      contract_subscriptions :=
        match trade.contract_id with
        | some cid =>
          if cid ≠ 0 then st.contract_subscriptions.filter (fun p => p.1 ≠ cid)
          else st.contract_subscriptions
        | none => st.contract_subscriptions,
      completed_trades := st.completed_trades ++ [trade1],
      risk := RiskManager.record_trade_result st.risk pnl was_winner now,
      recorded_results := st.recorded_results ++ [(pnl, was_winner)] }

/-- Embeds `TradeExecutor.handle_contract_update`: guard on a truthy
contract id that is registered in `contract_subscriptions` and maps to a
trade in `active_trades`; a truthy `current_spot` updates the exit price;
an `is_sold` push finalizes the trade. -/
def TradeExecutor.handle_contract_update (st : ExecutorState) (push : ContractPush)
    (now : ℚ) : ExecutorState :=
  match push.contract_id with
  | none => st
  | some cid =>
    if cid = 0 then st
    else
      match st.contract_subscriptions.lookup cid with
      | none => st
      | some trade_id =>
        match st.active_trades.find? (fun u => u.trade_id == trade_id) with
        | none => st
        | some trade =>
          let trade1 :=
            match push.current_spot with
            | some sp => if sp ≠ 0 then { trade with exit_price := some sp } else trade
            | none => trade
          if push.is_sold then
            TradeExecutor.finalize_trade st trade1 push now
          else
            let upd := fun (u : Trade) =>
              if u.trade_id = trade_id then trade1 else u
            { st with active_trades := st.active_trades.map upd }

/-- One iteration of the expired-trades loop of
`TradeExecutor.check_expired_trades`: a trade with a truthy contract id is
forced to ERROR, removed from the active dict and appended to the
completed list; a trade without one is only logged and left untouched. -/
def TradeExecutor.sweepStep (now : ℚ) (acc : ExecutorState) (trade : Trade) :
    ExecutorState :=
  match trade.contract_id with
  | some cid =>
    if cid ≠ 0 then
      { acc with
        active_trades := acc.active_trades.filter (fun u => u.trade_id ≠ trade.trade_id),
        completed_trades := acc.completed_trades ++
          [{ trade with status := .ERROR, exit_time := some now }] }
    else acc
  | none => acc

/-- Embeds `TradeExecutor.check_expired_trades` at one clock reading:
collects the active trades past `entry_time + duration * 1.1` and runs
the completion loop over them. -/
def TradeExecutor.check_expired_trades (st : ExecutorState) (now : ℚ) : ExecutorState :=
  let expired := st.active_trades.filter
    (fun t => now > t.entry_time + (t.duration : ℚ) * (11/10))
  expired.foldl (TradeExecutor.sweepStep now) st

/-! ## Shared helper lemmas -/

/-- The pre-assessment mutations (balance, peak, window resets) never touch
the pause fields. -/
theorem preAssess_pause_fields (s : RiskState) (b t : ℚ) :
    (RiskManager.preAssess s b t).trading_paused = s.trading_paused ∧
    (RiskManager.preAssess s b t).pause_reason = s.pause_reason ∧
    (RiskManager.preAssess s b t).pause_until = s.pause_until := by
  unfold RiskManager.preAssess RiskManager.check_hourly_reset
    RiskManager.check_daily_reset RiskManager.update_peak_balance
  split <;> split <;> split <;> exact ⟨rfl, rfl, rfl⟩

/-- The pre-assessment mutations never touch the configuration. -/
theorem preAssess_config_fields (s : RiskState) (b t : ℚ) :
    (RiskManager.preAssess s b t).trading_config = s.trading_config ∧
    (RiskManager.preAssess s b t).risk_config = s.risk_config := by
  unfold RiskManager.preAssess RiskManager.check_hourly_reset
    RiskManager.check_daily_reset RiskManager.update_peak_balance
  split <;> split <;> split <;> exact ⟨rfl, rfl⟩

/-! ## Claim C1 -/

/-- A connected client with two outstanding requests. -/
def clientTwoPending : ClientState :=
  { connected := true, authenticated := true, hasWebsocket := true,
    request_id_counter := 2, pending_requests := [1, 2],
    rate_limiter := { max_calls := 30, time_window := 60, calls := [] } }

/-- Claim C1 counterexample: with two requests outstanding, detecting the
connection drop (the `ConnectionClosed` branch of the message listener)
leaves both still registered in the pending table — the claim's
"no pending request remains in the table afterwards" is false. -/
theorem c1_counterexample :
    (DerivWebSocketClient.onConnectionClosed clientTwoPending).pending_requests = [1, 2] ∧
    (DerivWebSocketClient.onConnectionClosed clientTwoPending).pending_requests ≠ [] := by
  exact ⟨rfl, by decide⟩

/-- Claim C1 (amended): detection of a connection drop only clears the
`connected` flag and leaves every outstanding request in the pending
table, to resolve by its own timeout; the pending table is emptied only by
an explicit `disconnect()` call, which cancels (rather than fails with a
`ConnectionLost` error) exactly the outstanding requests. -/
theorem c1_amended :
    ∀ s : ClientState,
      (DerivWebSocketClient.onConnectionClosed s).pending_requests = s.pending_requests ∧
      (DerivWebSocketClient.onConnectionClosed s).connected = false ∧
      (DerivWebSocketClient.disconnect s).1.pending_requests = [] ∧
      (DerivWebSocketClient.disconnect s).2 = s.pending_requests :=
  fun _ => ⟨rfl, rfl, rfl, rfl⟩

/-! ## Claim C2 -/

/-- The client after thirty `send_request` calls issued at time 0. -/
def burst30 : ClientState := (runTrace (List.replicate 30 (WsEvent.sendEv 0))).client

/-- Claim C2 counterexample: after 30 requests at time 0, the 31st request
at time 9 (all 31 within 10 seconds) is not delayed until a slot frees: it
returns `None` immediately (after a fixed 1-second sleep), sends nothing,
allocates no correlation id and registers nothing — the request is
dropped, not blocked. -/
theorem c2_counterexample :
    (DerivWebSocketClient.send_request burst30 9).1 = SendOutcome.rateLimited ∧
    (DerivWebSocketClient.send_request burst30 9).2.pending_requests
      = burst30.pending_requests ∧
    (DerivWebSocketClient.send_request burst30 9).2.request_id_counter
      = burst30.request_id_counter ∧
    ∀ rid, (DerivWebSocketClient.send_request burst30 9).1 ≠ SendOutcome.sent rid := by
  refine ⟨by decide, by decide, by decide, ?_⟩
  intro rid h
  have h1 : (DerivWebSocketClient.send_request burst30 9).1 = SendOutcome.rateLimited := by
    decide
  rw [h1] at h
  exact SendOutcome.noConfusion h

/-- Claim C2 (amended): a `send_request` call finding the sliding-window
rate limit exhausted is dropped, not delayed: it sleeps a fixed second and
returns `None` without sending, without allocating a correlation id and
without registering a pending request (only the limiter's window prune is
kept); no `RateLimited` error is ever raised. -/
theorem c2_amended (s : ClientState) (now : ℚ)
    (hc : s.connected = true) (hw : s.hasWebsocket = true)
    (hr : (s.rate_limiter.can_proceed now).1 = false) :
    DerivWebSocketClient.send_request s now
      = (SendOutcome.rateLimited, { s with rate_limiter := (s.rate_limiter.can_proceed now).2 }) ∧
    (DerivWebSocketClient.send_request s now).2.pending_requests = s.pending_requests ∧
    (DerivWebSocketClient.send_request s now).2.request_id_counter = s.request_id_counter := by
  have hcond : ¬ (¬ s.connected ∨ ¬ s.hasWebsocket) := by
    simp [hc, hw]
  have h1 : DerivWebSocketClient.send_request s now
      = (SendOutcome.rateLimited, { s with rate_limiter := (s.rate_limiter.can_proceed now).2 }) := by
    unfold DerivWebSocketClient.send_request
    rw [if_neg hcond, if_pos (by simp [hr])]
  exact ⟨h1, by rw [h1], by rw [h1]⟩

/-- Claim C2 (amended) witness: the concrete 31-requests-in-10-seconds
burst discharges the hypotheses. -/
theorem c2_amended_witness :
    burst30.connected = true ∧ burst30.hasWebsocket = true ∧
    (burst30.rate_limiter.can_proceed 9).1 = false ∧
    DerivWebSocketClient.send_request burst30 9
      = (SendOutcome.rateLimited,
         { burst30 with rate_limiter := (burst30.rate_limiter.can_proceed 9).2 }) :=
  ⟨by decide, by decide, by decide,
   (c2_amended burst30 9 (by decide) (by decide) (by decide)).1⟩

/-! ## Claim C10 -/

/-- Claim C10: calling `send_request` while disconnected (or without a
websocket) returns `None` immediately and leaves the whole client state
unchanged — no correlation id allocated, no pending request registered, no
rate-limiter slot consumed. -/
theorem c10_send_request_not_connected_noop :
    ∀ (s : ClientState) (now : ℚ), (¬ s.connected ∨ ¬ s.hasWebsocket) →
      DerivWebSocketClient.send_request s now = (SendOutcome.notConnected, s) := by
  intro s now h
  unfold DerivWebSocketClient.send_request
  rw [if_pos h]

/-- A client whose transport has dropped. -/
def droppedClient : ClientState :=
  { connected := false, authenticated := false, hasWebsocket := false,
    request_id_counter := 7, pending_requests := [5, 6],
    rate_limiter := { max_calls := 30, time_window := 60, calls := [3] } }

/-- Claim C10 witness. -/
theorem c10_send_request_not_connected_noop_witness :
    (¬ droppedClient.connected ∨ ¬ droppedClient.hasWebsocket) ∧
    DerivWebSocketClient.send_request droppedClient 5
      = (SendOutcome.notConnected, droppedClient) :=
  ⟨Or.inl (by decide),
   c10_send_request_not_connected_noop droppedClient 5 (Or.inl (by decide))⟩

/-! ## Claim C9 -/

/-- Claim C9: the risk assessment is total at its public interface: when
the (unpaused) assessment pipeline raises, `assess_trade_risk` does not
propagate the exception but returns a REJECTED decision with stake 0,
risk score 100 and the error recorded in the rejection reasons. -/
theorem c9_assessment_error_caught (s : RiskState) (sig : TradingSignal)
    (bal now : ℚ) (e : RiskError)
    (hp : s.trading_paused = false)
    (he : RiskManager.riskPipeline (RiskManager.preAssess s bal now) sig
            = Except.error e) :
    (RiskManager.assess_trade_risk s sig bal now).1 = RiskManager.errorRisk e ∧
    (RiskManager.assess_trade_risk s sig bal now).1.decision = TradeDecision.REJECTED ∧
    (RiskManager.assess_trade_risk s sig bal now).1.recommended_stake = 0 ∧
    (RiskManager.assess_trade_risk s sig bal now).1.risk_score = 100 ∧
    (RiskManager.assess_trade_risk s sig bal now).1.rejection_reasons
      = [RejectReason.assessmentError e] := by
  have hpp : (RiskManager.preAssess s bal now).trading_paused = false :=
    (preAssess_pause_fields s bal now).1.trans hp
  have h1 : (RiskManager.assess_trade_risk s sig bal now).1 = RiskManager.errorRisk e := by
    unfold RiskManager.assess_trade_risk
    simp only [hpp, Bool.false_eq_true, if_false, he]
  exact ⟨h1, by rw [h1]; rfl, by rw [h1]; rfl, by rw [h1]; rfl, by rw [h1]; rfl⟩

/-! ## Claim C3 -/

/-- A benign risk configuration (generous limits). -/
def rcC3 : RiskConfig :=
  { max_daily_loss := 50, max_consecutive_losses := 5, max_trades_per_hour := 10,
    max_trades_per_day := 100, cooldown_minutes := 60, min_balance_to_trade := 10,
    max_drawdown_percent := 20 }

/-- Trading configuration with a 1-unit per-trade maximum stake. -/
def tcC3 : TradingConfig := { max_stake := 1 }

/-- A healthy, unpaused manager state: fresh statistics, comfortable
balance, no drawdown, window resets far in the future. -/
def sC3 : RiskState :=
  { risk_config := rcC3, trading_config := tcC3, stats := {},
    initial_balance := 1000, current_balance := 1000, peak_balance := 1000,
    daily_start_balance := 1000, daily_reset_time := 86400,
    hourly_trade_count := 0, hourly_reset_time := 3600,
    trading_paused := false, pause_reason := none, pause_until := 0 }

/-- A candidate whose only risk contributions are its mediocre confidence
(confidence 8/15 contributes 5) and its very short duration (contributes
5), for a total score of 10. -/
def sigC3 : TradingSignal :=
  { signal_type := .CALL, confidence := 8/15, duration := 2, entry_price := 100 }

/-- Claim C3 counterexample: on a snapshot with no rejection and summed
score 10 (below 25) the decision is APPROVED, but the recommended stake is
9/10 — the stake multiplier max(0.1, 1 − score/100) is applied in the
APPROVED branch as well, so the claim's "APPROVED at full stake clamped to
the maximum" (which would give min 1 1 = 1) is false. -/
theorem c3_counterexample :
    (RiskManager.assess_trade_risk sC3 sigC3 1000 100).1.rejection_reasons = [] ∧
    (RiskManager.assess_trade_risk sC3 sigC3 1000 100).1.risk_score = 10 ∧
    (RiskManager.assess_trade_risk sC3 sigC3 1000 100).1.decision = TradeDecision.APPROVED ∧
    (RiskManager.assess_trade_risk sC3 sigC3 1000 100).1.recommended_stake = 9/10 ∧
    (9/10 : ℚ) ≠ min sC3.trading_config.max_stake sC3.trading_config.max_stake := by
  refine ⟨by decide, by decide, by decide, by decide, by decide⟩

/-- Claim C3 (amended): on an unpaused snapshot whose assessment pipeline
accumulates no rejection reason and score `score`: if score ≥ 75 the
decision is REJECTED with stake 0 and the "risk score too high" reason; if
25 ≤ score < 75 the decision is REDUCED with recommended stake equal to
the configured per-trade maximum times max(0.1, 1 − score/100), clamped to
that maximum and rounded to 2 decimals; and if score < 25 the decision is
APPROVED with the recommended stake computed by the same multiplier
formula (not at full stake). -/
theorem c3_amended (s : RiskState) (sig : TradingSignal) (bal now score : ℚ)
    (ws : List RiskWarning)
    (hp : s.trading_paused = false)
    (hpl : RiskManager.riskPipeline (RiskManager.preAssess s bal now) sig
             = Except.ok (score, ws, [])) :
    (75 ≤ score →
      (RiskManager.assess_trade_risk s sig bal now).1.decision = TradeDecision.REJECTED ∧
      (RiskManager.assess_trade_risk s sig bal now).1.recommended_stake = 0 ∧
      (RiskManager.assess_trade_risk s sig bal now).1.rejection_reasons
        = [RejectReason.riskScoreTooHigh]) ∧
    (25 ≤ score → score < 75 →
      (RiskManager.assess_trade_risk s sig bal now).1.decision = TradeDecision.REDUCED ∧
      (RiskManager.assess_trade_risk s sig bal now).1.recommended_stake =
        roundTo2 (min (s.trading_config.max_stake * max (1/10) (1 - score / 100))
          s.trading_config.max_stake)) ∧
    (score < 25 →
      (RiskManager.assess_trade_risk s sig bal now).1.decision = TradeDecision.APPROVED ∧
      (RiskManager.assess_trade_risk s sig bal now).1.recommended_stake =
        roundTo2 (min (s.trading_config.max_stake * max (1/10) (1 - score / 100))
          s.trading_config.max_stake)) := by
  have hpp : (RiskManager.preAssess s bal now).trading_paused = false :=
    (preAssess_pause_fields s bal now).1.trans hp
  have htc := (preAssess_config_fields s bal now).1
  have hr : (RiskManager.assess_trade_risk s sig bal now).1
      = RiskManager.decisionPolicy s.trading_config score ws [] := by
    unfold RiskManager.assess_trade_risk
    simp only [hpp, Bool.false_eq_true, if_false, hpl, htc]
  rw [hr]
  unfold RiskManager.decisionPolicy
  rw [if_neg (by simp)]
  refine ⟨?_, ?_, ?_⟩
  · intro h75
    rw [if_pos h75]
    refine ⟨rfl, ?_, rfl⟩
    show roundTo2 0 = 0
    decide
  · intro h25 h75
    rw [if_neg (not_le.mpr h75)]
    by_cases h50 : (50 : ℚ) ≤ score
    · rw [if_pos h50]
      have hm : max (1/10 : ℚ) (1 - score / 100) < 8/10 := by
        rw [max_lt_iff]
        constructor <;> linarith
      rw [if_pos hm]
      exact ⟨rfl, rfl⟩
    · rw [if_neg h50, if_pos h25]
      have hm : max (1/10 : ℚ) (1 - score / 100) < 9/10 := by
        rw [max_lt_iff]
        constructor <;> linarith
      rw [if_pos hm]
      exact ⟨rfl, rfl⟩
  · intro h25
    rw [if_neg (by linarith : ¬ (75 : ℚ) ≤ score),
        if_neg (by linarith : ¬ (50 : ℚ) ≤ score),
        if_neg (not_le.mpr h25)]
    exact ⟨rfl, rfl⟩

/-- Claim C3 (amended) witness: the concrete score-10 snapshot takes the
below-25 branch. -/
theorem c3_amended_witness :
    (10 : ℚ) < 25 ∧
    (RiskManager.assess_trade_risk sC3 sigC3 1000 100).1.decision = TradeDecision.APPROVED ∧
    (RiskManager.assess_trade_risk sC3 sigC3 1000 100).1.recommended_stake =
      roundTo2 (min (sC3.trading_config.max_stake * max (1/10) (1 - 10 / 100))
        sC3.trading_config.max_stake) := by
  have h := (c3_amended sC3 sigC3 1000 100 10
    [RiskWarning.lowConfidence (8/15), RiskWarning.veryShortDuration]
    rfl (by rfl)).2.2 (by norm_num)
  exact ⟨by norm_num, h.1, h.2⟩

/-! ## Claim C4 -/

/-- Does a rejection reason mention consecutive losses (either the hard
limit or a consecutive-loss pause)? -/
def mentionsConsecutiveLosses : RejectReason → Bool
  | .consecutiveLossLimit _ => true
  | .tradingPaused (some (.consecutiveLosses _)) => true
  | _ => false

/-- A tight configuration: one consecutive loss and a 1-unit daily loss
both breach. -/
def rcC4 : RiskConfig :=
  { max_daily_loss := 1, max_consecutive_losses := 1, max_trades_per_hour := 15,
    max_trades_per_day := 100, cooldown_minutes := 30, min_balance_to_trade := 2,
    max_drawdown_percent := 40 }

/-- A fresh manager state under the tight configuration. -/
def sC4 : RiskState :=
  { risk_config := rcC4, trading_config := { max_stake := 1 }, stats := {},
    initial_balance := 0, current_balance := 0, peak_balance := 0,
    daily_start_balance := 0, daily_reset_time := 86400,
    hourly_trade_count := 0, hourly_reset_time := 3600,
    trading_paused := false, pause_reason := none, pause_until := 0 }

/-- Claim C4 counterexample: one recorded loss of 2 reaches the
consecutive-loss limit (1), but the same loss also breaches the daily-loss
limit, whose later check overwrites the pause: the pause reason becomes
the daily-loss one and the pause deadline becomes the daily reset (86400),
not the configured cooldown (30 min = 1800 s).  The very next `evaluate`
is REJECTED, but none of its rejection reasons mentions consecutive
losses — the claim's "pause reason mentioning consecutive losses" is
false on this run. -/
theorem c4_counterexample :
    (RiskManager.record_trade_result sC4 (-2) false 0).trading_paused = true ∧
    (RiskManager.record_trade_result sC4 (-2) false 0).pause_reason
      = some (PauseReason.dailyLoss 2) ∧
    (RiskManager.record_trade_result sC4 (-2) false 0).pause_until = 86400 ∧
    sC4.risk_config.cooldown_minutes * 60 = 1800 ∧
    (RiskManager.assess_trade_risk
       (RiskManager.record_trade_result sC4 (-2) false 0) sigC3 100 10).1.decision
      = TradeDecision.REJECTED ∧
    ((RiskManager.assess_trade_risk
       (RiskManager.record_trade_result sC4 (-2) false 0) sigC3 100 10).1.rejection_reasons.all
      (fun r => ! mentionsConsecutiveLosses r)) = true ∧
    (RiskManager.assess_trade_risk
       (RiskManager.record_trade_result sC4 (-2) false 0) sigC3 100 10).1.rejection_reasons
      ≠ [] := by
  refine ⟨by decide, by decide, by decide, by decide, by decide, by decide, by decide⟩

/-- A breached consecutive-loss ceiling pauses with the consecutive-loss
reason and the configured cooldown. -/
theorem pauseStepConsecutive_breach (s : RiskState) (now : ℚ)
    (hcl : s.risk_config.max_consecutive_losses ≤ s.stats.consecutive_losses) :
    RiskManager.pauseStepConsecutive s now =
      RiskManager.pause_trading s
        (PauseReason.consecutiveLosses s.stats.consecutive_losses)
        (s.risk_config.cooldown_minutes * 60) now :=
  if_pos hcl

/-- Without a daily-loss breach the daily clause changes nothing. -/
theorem pauseStepDaily_noop (s : RiskState) (now : ℚ)
    (h : ¬ (s.risk_config.max_daily_loss ≤ |s.stats.daily_profit_loss| ∧
            s.stats.daily_profit_loss < 0)) :
    RiskManager.pauseStepDaily s now = s :=
  if_neg h

/-- Without a drawdown breach the drawdown clause changes nothing. -/
theorem pauseStepDrawdown_noop (s : RiskState) (now : ℚ)
    (h : ¬ (0 < s.peak_balance ∧
            s.risk_config.max_drawdown_percent ≤
              (s.peak_balance - s.current_balance) / s.peak_balance * 100)) :
    RiskManager.pauseStepDrawdown s now = s := by
  unfold RiskManager.pauseStepDrawdown
  by_cases hpk : s.peak_balance > 0
  · rw [if_pos hpk]
    exact if_neg (fun hc => h ⟨hpk, hc⟩)
  · exact if_neg hpk

/-- When the consecutive-loss ceiling is breached but neither the
daily-loss condition nor the drawdown condition holds, the auto-pause
check pauses with the consecutive-loss reason and the configured
cooldown. -/
theorem check_auto_pause_consecutive_only (s : RiskState) (now : ℚ)
    (hcl : s.risk_config.max_consecutive_losses ≤ s.stats.consecutive_losses)
    (hdaily : ¬ (s.risk_config.max_daily_loss ≤ |s.stats.daily_profit_loss| ∧
                 s.stats.daily_profit_loss < 0))
    (hdd : ¬ (0 < s.peak_balance ∧
              s.risk_config.max_drawdown_percent ≤
                (s.peak_balance - s.current_balance) / s.peak_balance * 100)) :
    RiskManager.check_auto_pause_conditions s now =
      RiskManager.pause_trading s
        (PauseReason.consecutiveLosses s.stats.consecutive_losses)
        (s.risk_config.cooldown_minutes * 60) now := by
  unfold RiskManager.check_auto_pause_conditions
  rw [pauseStepConsecutive_breach s now hcl,
      pauseStepDaily_noop
        (RiskManager.pause_trading s
          (PauseReason.consecutiveLosses s.stats.consecutive_losses)
          (s.risk_config.cooldown_minutes * 60) now) now hdaily,
      pauseStepDrawdown_noop
        (RiskManager.pause_trading s
          (PauseReason.consecutiveLosses s.stats.consecutive_losses)
          (s.risk_config.cooldown_minutes * 60) now) now hdd]

/-- Claim C4 (amended): when a recorded loss brings the consecutive-loss
count to the configured ceiling and the same record breaches neither the
daily-loss limit nor the drawdown limit, the manager pauses with the
consecutive-loss reason until `t + cooldown_minutes × 60`, and every
`evaluate` call strictly before that deadline returns REJECTED whose only
rejection reason is the consecutive-loss pause, leaving the pause fields
in place (so the rejection persists until the cooldown elapses).  When
the same record also breaches the daily-loss or drawdown limits, the
later checks overwrite the pause reason and deadline (see the
counterexample). -/
theorem c4_amended (s : RiskState) (pnl t : ℚ)
    (hcl : s.risk_config.max_consecutive_losses ≤ s.stats.consecutive_losses + 1)
    (hdaily : ¬ (s.risk_config.max_daily_loss ≤ |s.stats.daily_profit_loss + pnl| ∧
                 s.stats.daily_profit_loss + pnl < 0))
    (hdd : ¬ (0 < s.peak_balance ∧
              s.risk_config.max_drawdown_percent ≤
                (s.peak_balance - s.current_balance) / s.peak_balance * 100)) :
    (RiskManager.record_trade_result s pnl false t).trading_paused = true ∧
    (RiskManager.record_trade_result s pnl false t).pause_reason
      = some (PauseReason.consecutiveLosses (s.stats.consecutive_losses + 1)) ∧
    (RiskManager.record_trade_result s pnl false t).pause_until
      = t + s.risk_config.cooldown_minutes * 60 ∧
    (∀ (sig : TradingSignal) (bal t2 : ℚ),
      t2 < t + s.risk_config.cooldown_minutes * 60 →
      (RiskManager.assess_trade_risk (RiskManager.record_trade_result s pnl false t)
          sig bal t2).1.decision = TradeDecision.REJECTED ∧
      (RiskManager.assess_trade_risk (RiskManager.record_trade_result s pnl false t)
          sig bal t2).1.rejection_reasons
        = [RejectReason.tradingPaused
            (some (PauseReason.consecutiveLosses (s.stats.consecutive_losses + 1)))] ∧
      (RiskManager.assess_trade_risk (RiskManager.record_trade_result s pnl false t)
          sig bal t2).2.trading_paused = true ∧
      (RiskManager.assess_trade_risk (RiskManager.record_trade_result s pnl false t)
          sig bal t2).2.pause_reason
        = some (PauseReason.consecutiveLosses (s.stats.consecutive_losses + 1)) ∧
      (RiskManager.assess_trade_risk (RiskManager.record_trade_result s pnl false t)
          sig bal t2).2.pause_until = t + s.risk_config.cooldown_minutes * 60) := by
  have hrec : RiskManager.record_trade_result s pnl false t
      = RiskManager.pause_trading
          { s with
              stats := { s.stats with
                total_trades := s.stats.total_trades + 1,
                total_profit_loss := s.stats.total_profit_loss + pnl,
                daily_profit_loss := s.stats.daily_profit_loss + pnl,
                last_trade_time := t,
                losing_trades := s.stats.losing_trades + 1,
                consecutive_losses := s.stats.consecutive_losses + 1,
                consecutive_wins := 0,
                max_consecutive_losses :=
                  if s.stats.consecutive_losses + 1 > s.stats.max_consecutive_losses
                  then s.stats.consecutive_losses + 1
                  else s.stats.max_consecutive_losses },
              hourly_trade_count := s.hourly_trade_count + 1 }
          (PauseReason.consecutiveLosses (s.stats.consecutive_losses + 1))
          (s.risk_config.cooldown_minutes * 60) t :=
    check_auto_pause_consecutive_only _ t hcl hdaily hdd
  refine ⟨by rw [hrec]; rfl, by rw [hrec]; rfl, by rw [hrec]; rfl, ?_⟩
  intro sig bal t2 ht2
  have h4 := preAssess_pause_fields (RiskManager.record_trade_result s pnl false t) bal t2
  have hp4 : (RiskManager.preAssess (RiskManager.record_trade_result s pnl false t)
      bal t2).trading_paused = true := by rw [h4.1, hrec]; rfl
  have hr4 : (RiskManager.preAssess (RiskManager.record_trade_result s pnl false t)
      bal t2).pause_reason
      = some (PauseReason.consecutiveLosses (s.stats.consecutive_losses + 1)) := by
    rw [h4.2.1, hrec]
    rfl
  have hu4 : (RiskManager.preAssess (RiskManager.record_trade_result s pnl false t)
      bal t2).pause_until = t + s.risk_config.cooldown_minutes * 60 := by
    rw [h4.2.2, hrec]
    rfl
  unfold RiskManager.assess_trade_risk
  simp only [hp4, eq_self_iff_true, if_true, hu4]
  rw [if_pos ht2]
  exact ⟨rfl, by rw [hr4], hp4, hr4, hu4⟩

/-- A manager one loss away from a 2-loss ceiling, with generous daily and
drawdown limits. -/
def rcC4w : RiskConfig :=
  { max_daily_loss := 100, max_consecutive_losses := 2, max_trades_per_hour := 15,
    max_trades_per_day := 100, cooldown_minutes := 30, min_balance_to_trade := 2,
    max_drawdown_percent := 40 }

def sC4w : RiskState :=
  { risk_config := rcC4w,
    trading_config := { max_stake := 1 },
    stats := { total_trades := 1, losing_trades := 1, consecutive_losses := 1,
               total_profit_loss := -1, daily_profit_loss := -1 },
    initial_balance := 0, current_balance := 0, peak_balance := 0,
    daily_start_balance := 0, daily_reset_time := 86400,
    hourly_trade_count := 1, hourly_reset_time := 3600,
    trading_paused := false, pause_reason := none, pause_until := 0 }

/-- Claim C4 (amended) witness: the second loss pauses with the
consecutive-loss reason for the 30-minute cooldown, and an evaluate 900
seconds later is rejected for exactly that reason. -/
theorem c4_amended_witness :
    (RiskManager.record_trade_result sC4w (-1) false 0).trading_paused = true ∧
    (RiskManager.record_trade_result sC4w (-1) false 0).pause_reason
      = some (PauseReason.consecutiveLosses 2) ∧
    (RiskManager.record_trade_result sC4w (-1) false 0).pause_until = 1800 ∧
    (RiskManager.assess_trade_risk (RiskManager.record_trade_result sC4w (-1) false 0)
        sigC3 50 900).1.decision = TradeDecision.REJECTED ∧
    (RiskManager.assess_trade_risk (RiskManager.record_trade_result sC4w (-1) false 0)
        sigC3 50 900).1.rejection_reasons
      = [RejectReason.tradingPaused (some (PauseReason.consecutiveLosses 2))] := by
  have h := c4_amended sC4w (-1) 0 (by decide) (by decide) (by decide)
  have h9 := h.2.2.2 sigC3 50 900 (by norm_num [sC4w, rcC4w])
  exact ⟨h.1, h.2.1, by rw [h.2.2.1]; norm_num [sC4w, rcC4w], h9.1, h9.2.1⟩

/-- A manager state with a zero balance, on which the stake-percentage
division raises. -/
def sC9 : RiskState :=
  { risk_config := rcC3, trading_config := tcC3, stats := {},
    initial_balance := 0, current_balance := 0, peak_balance := 0,
    daily_start_balance := 0, daily_reset_time := 86400,
    hourly_trade_count := 0, hourly_reset_time := 3600,
    trading_paused := false, pause_reason := none, pause_until := 0 }

/-- Claim C9 witness: with balance 0 the pipeline raises
`ZeroDivisionError` and the public assessment returns the catch-all
rejection. -/
theorem c9_witness :
    sC9.trading_paused = false ∧
    RiskManager.riskPipeline (RiskManager.preAssess sC9 0 50) sigC3
      = Except.error RiskError.zeroDivision ∧
    (RiskManager.assess_trade_risk sC9 sigC3 0 50).1
      = RiskManager.errorRisk RiskError.zeroDivision :=
  ⟨rfl, rfl, (c9_assessment_error_caught sC9 sigC3 0 50 RiskError.zeroDivision rfl rfl).1⟩

/-! ## Claim C6 -/

/-- An executor over the healthy risk state `sC3` with no history. -/
def exSt0 : ExecutorState :=
  { risk := sC3, active_trades := [], completed_trades := [], trade_counter := 0,
    total_executions := 0, successful_executions := 0, failed_executions := 0,
    rejected_executions := 0, contract_subscriptions := [], recorded_results := [] }

/-- Claim C6 counterexample: an approved submission whose placement fails
at the transport (`_place_order` returns `None`) yields a FAILED report
whose trade is in status ERROR, but the trade is NOT moved into the
completed set (and enters no other set): the claim's "moved directly into
the completed set" is false — the source only returns the trade inside
the report. -/
theorem c6_counterexample :
    (TradeExecutor.execute_trade exSt0 sigC3 1000 100 none).1.result
      = ExecutionResult.FAILED ∧
    ((TradeExecutor.execute_trade exSt0 sigC3 1000 100 none).1.trade.map Trade.status)
      = some TradeStatus.ERROR ∧
    (TradeExecutor.execute_trade exSt0 sigC3 1000 100 none).2.completed_trades = [] ∧
    (TradeExecutor.execute_trade exSt0 sigC3 1000 100 none).2.active_trades = [] ∧
    (TradeExecutor.execute_trade exSt0 sigC3 1000 100 none).2.recorded_results = [] := by
  refine ⟨by decide, by decide, by decide, by decide, by decide⟩

/-- Claim C6 (amended): for every submission that passes the risk gate but
whose placement request fails at the transport, the created order
transitions to ERROR and is returned only inside the failure report: it
never becomes ACTIVE, is added to neither the active nor the completed
set, no contract mapping is registered, and `record_trade_result` is not
called for it. -/
theorem c6_amended (st : ExecutorState) (sig : TradingSignal) (bal now : ℚ)
    (hnr : (RiskManager.assess_trade_risk st.risk sig bal now).1.decision
             ≠ TradeDecision.REJECTED) :
    (TradeExecutor.execute_trade st sig bal now none).1.result = ExecutionResult.FAILED ∧
    (∀ tr, (TradeExecutor.execute_trade st sig bal now none).1.trade = some tr →
      tr.status = TradeStatus.ERROR) ∧
    (TradeExecutor.execute_trade st sig bal now none).2.active_trades
      = st.active_trades ∧
    (TradeExecutor.execute_trade st sig bal now none).2.completed_trades
      = st.completed_trades ∧
    (TradeExecutor.execute_trade st sig bal now none).2.contract_subscriptions
      = st.contract_subscriptions ∧
    (TradeExecutor.execute_trade st sig bal now none).2.recorded_results
      = st.recorded_results := by
  have h1 : TradeExecutor.execute_trade st sig bal now none
      = ({ result := ExecutionResult.FAILED,
           trade := some
             { trade_id := st.trade_counter + 1, signal := sig,
               contract_type := sig.signal_type,
               stake := (RiskManager.assess_trade_risk st.risk sig bal now).1.recommended_stake,
               duration := sig.duration, entry_price := sig.entry_price,
               entry_time := now, status := TradeStatus.ERROR },
           risk_assessment := some (RiskManager.assess_trade_risk st.risk sig bal now).1 },
         { st with
             risk := (RiskManager.assess_trade_risk st.risk sig bal now).2,
             trade_counter := st.trade_counter + 1,
             failed_executions := st.failed_executions + 1,
             total_executions := st.total_executions + 1 }) := by
    unfold TradeExecutor.execute_trade
    rw [if_neg hnr]
  refine ⟨by rw [h1], ?_, by rw [h1], by rw [h1], by rw [h1], by rw [h1]⟩
  intro tr htr
  rw [h1] at htr
  injection htr with h2
  rw [← h2]

/-- Claim C6 (amended) witness: the healthy state approves, placement
fails, and the report carries the ERROR trade while the sets stay
empty. -/
theorem c6_amended_witness :
    (RiskManager.assess_trade_risk exSt0.risk sigC3 1000 100).1.decision
      ≠ TradeDecision.REJECTED ∧
    (TradeExecutor.execute_trade exSt0 sigC3 1000 100 none).1.result
      = ExecutionResult.FAILED ∧
    (TradeExecutor.execute_trade exSt0 sigC3 1000 100 none).2.completed_trades
      = exSt0.completed_trades :=
  ⟨by decide, (c6_amended exSt0 sigC3 1000 100 (by decide)).1,
   (c6_amended exSt0 sigC3 1000 100 (by decide)).2.2.2.1⟩

/-! ## Claim C7 -/

/-- The truthy-contract-id guard of the sweep loop, as a predicate. -/
def contractOk (x : Trade) : Bool :=
  match x.contract_id with
  | some c => decide (c ≠ 0)
  | none => false

/-- A trade with a truthy contract id has one. -/
theorem contractOk_iff (t : Trade) :
    contractOk t = true ↔ ∃ c, t.contract_id = some c ∧ c ≠ 0 := by
  unfold contractOk
  rcases hc : t.contract_id with _ | c <;> simp [hc]

/-- One sweep iteration on a trade with a truthy contract id: the trade's
id is filtered out of the active dict and its errored copy appended to the
completed list. -/
theorem sweepStep_eq_ok (now : ℚ) (acc : ExecutorState) (t : Trade) (cid : Nat)
    (hc : t.contract_id = some cid) (h0 : cid ≠ 0) :
    TradeExecutor.sweepStep now acc t =
      { acc with
          active_trades := acc.active_trades.filter (fun u => u.trade_id ≠ t.trade_id),
          completed_trades := acc.completed_trades ++
            [{ t with status := TradeStatus.ERROR, exit_time := some now }] } := by
  unfold TradeExecutor.sweepStep
  simp only [hc]
  rw [if_pos h0]

/-- One sweep iteration on a trade without a truthy contract id changes
nothing. -/
theorem sweepStep_eq_noop (now : ℚ) (acc : ExecutorState) (t : Trade)
    (h : contractOk t = false) :
    TradeExecutor.sweepStep now acc t = acc := by
  unfold TradeExecutor.sweepStep
  unfold contractOk at h
  rcases hc : t.contract_id with _ | cid
  · simp only [hc]
  · simp only [hc] at h ⊢
    rw [if_neg (of_decide_eq_false h)]

/-- The sweep loop only ever removes trades from the active dict. -/
theorem sweep_active_subset (now : ℚ) :
    ∀ (l : List Trade) (acc : ExecutorState),
      ∀ u ∈ (l.foldl (TradeExecutor.sweepStep now) acc).active_trades,
        u ∈ acc.active_trades := by
  intro l
  induction l with
  | nil => intro acc u hu; exact hu
  | cons hd tl ih =>
    intro acc u hu
    have h1 : u ∈ (TradeExecutor.sweepStep now acc hd).active_trades :=
      ih (TradeExecutor.sweepStep now acc hd) u hu
    by_cases hok : contractOk hd = true
    · obtain ⟨cid, hc, h0⟩ := (contractOk_iff hd).mp hok
      rw [sweepStep_eq_ok now acc hd cid hc h0] at h1
      exact (List.mem_filter.mp h1).1
    · rw [sweepStep_eq_noop now acc hd (Bool.eq_false_iff.mpr hok)] at h1
      exact h1

/-- The sweep loop only ever appends to the completed list. -/
theorem sweep_completed_mono (now : ℚ) :
    ∀ (l : List Trade) (acc : ExecutorState) (x : Trade),
      x ∈ acc.completed_trades →
      x ∈ (l.foldl (TradeExecutor.sweepStep now) acc).completed_trades := by
  intro l
  induction l with
  | nil => intro acc x hx; exact hx
  | cons hd tl ih =>
    intro acc x hx
    refine ih (TradeExecutor.sweepStep now acc hd) x ?_
    by_cases hok : contractOk hd = true
    · obtain ⟨cid, hc, h0⟩ := (contractOk_iff hd).mp hok
      rw [sweepStep_eq_ok now acc hd cid hc h0]
      exact List.mem_append_left _ hx
    · rw [sweepStep_eq_noop now acc hd (Bool.eq_false_iff.mpr hok)]
      exact hx

/-- Once a trade with a truthy contract id is in the loop's work list, no
trade with its id survives in the active dict. -/
theorem sweep_removes (now : ℚ) :
    ∀ (l : List Trade) (acc : ExecutorState) (t0 : Trade),
      t0 ∈ l → contractOk t0 = true →
      ∀ u ∈ (l.foldl (TradeExecutor.sweepStep now) acc).active_trades,
        u.trade_id ≠ t0.trade_id := by
  intro l
  induction l with
  | nil => intro acc t0 h; exact absurd h (List.not_mem_nil t0)
  | cons hd tl ih =>
    intro acc t0 hmem hok u hu
    rcases List.mem_cons.mp hmem with heq | htl
    · subst heq
      obtain ⟨cid, hc, h0⟩ := (contractOk_iff t0).mp hok
      have h1 : u ∈ (TradeExecutor.sweepStep now acc t0).active_trades :=
        sweep_active_subset now tl (TradeExecutor.sweepStep now acc t0) u hu
      rw [sweepStep_eq_ok now acc t0 cid hc h0] at h1
      exact of_decide_eq_true (List.mem_filter.mp h1).2
    · exact ih (TradeExecutor.sweepStep now acc hd) t0 htl hok u hu

/-- A trade with a truthy contract id in the loop's work list ends up in
the completed list as its errored copy. -/
theorem sweep_adds (now : ℚ) :
    ∀ (l : List Trade) (acc : ExecutorState) (t0 : Trade),
      t0 ∈ l → contractOk t0 = true →
      { t0 with status := TradeStatus.ERROR, exit_time := some now }
        ∈ (l.foldl (TradeExecutor.sweepStep now) acc).completed_trades := by
  intro l
  induction l with
  | nil => intro acc t0 h; exact absurd h (List.not_mem_nil t0)
  | cons hd tl ih =>
    intro acc t0 hmem hok
    rcases List.mem_cons.mp hmem with heq | htl
    · subst heq
      obtain ⟨cid, hc, h0⟩ := (contractOk_iff t0).mp hok
      refine sweep_completed_mono now tl (TradeExecutor.sweepStep now acc t0) _ ?_
      rw [sweepStep_eq_ok now acc t0 cid hc h0]
      exact List.mem_append_right _ (List.mem_singleton.mpr rfl)
    · exact ih (TradeExecutor.sweepStep now acc hd) t0 htl hok

/-- Counting completed trades with a given id through the sweep loop: one
copy is appended for each work-list entry with that id and a truthy
contract id. -/
theorem sweep_countP (now : ℚ) (tid : Nat) :
    ∀ (l : List Trade) (acc : ExecutorState),
      (l.foldl (TradeExecutor.sweepStep now) acc).completed_trades.countP
          (fun u => u.trade_id == tid)
        = acc.completed_trades.countP (fun u => u.trade_id == tid)
          + l.countP (fun x => (x.trade_id == tid) && contractOk x) := by
  intro l
  induction l with
  | nil => intro acc; simp
  | cons hd tl ih =>
    intro acc
    rw [List.foldl_cons, ih, List.countP_cons]
    by_cases hok : contractOk hd = true
    · obtain ⟨cid, hc, h0⟩ := (contractOk_iff hd).mp hok
      rw [sweepStep_eq_ok now acc hd cid hc h0]
      simp only [List.countP_append, List.countP_cons, List.countP_nil, hok,
        Bool.and_true]
      by_cases hb : hd.trade_id == tid
      · simp [hb]
        omega
      · simp [hb]
    · have hf : contractOk hd = false := Bool.eq_false_iff.mpr hok
      rw [sweepStep_eq_noop now acc hd hf]
      simp [hf]

/-- Claim C7 (amended): an ACTIVE order that carries a (truthy) venue
contract id, once past `entry_time + duration × 1.1`, is completed by the
sweep exactly once: after one sweep run no active trade bears its id, its
errored copy (status ERROR, exit time stamped) is in the completed list,
the completed count for its id grows by exactly one, and a second sweep
run adds no further copy.  (An ACTIVE order without a contract id is never
completed by the sweep; see the counterexample.) -/
theorem c7_amended (st : ExecutorState) (t0 : Trade) (cid : Nat) (now : ℚ)
    (hmem : t0 ∈ st.active_trades)
    (hcid : t0.contract_id = some cid) (hc0 : cid ≠ 0)
    (hexp : now > t0.entry_time + (t0.duration : ℚ) * (11/10))
    (huniq : st.active_trades.countP (fun u => u.trade_id == t0.trade_id) = 1) :
    (∀ u ∈ (TradeExecutor.check_expired_trades st now).active_trades,
        u.trade_id ≠ t0.trade_id) ∧
    ({ t0 with status := TradeStatus.ERROR, exit_time := some now }
        ∈ (TradeExecutor.check_expired_trades st now).completed_trades) ∧
    ((TradeExecutor.check_expired_trades st now).completed_trades.countP
        (fun u => u.trade_id == t0.trade_id)
      = st.completed_trades.countP (fun u => u.trade_id == t0.trade_id) + 1) ∧
    (∀ now2 : ℚ,
      (TradeExecutor.check_expired_trades
          (TradeExecutor.check_expired_trades st now) now2).completed_trades.countP
          (fun u => u.trade_id == t0.trade_id)
        = (TradeExecutor.check_expired_trades st now).completed_trades.countP
            (fun u => u.trade_id == t0.trade_id)) := by
  have hok : contractOk t0 = true := (contractOk_iff t0).mpr ⟨cid, hcid, hc0⟩
  have hexpired : t0 ∈ st.active_trades.filter
      (fun t => now > t.entry_time + (t.duration : ℚ) * (11/10)) :=
    List.mem_filter.mpr ⟨hmem, decide_eq_true hexp⟩
  have hch : TradeExecutor.check_expired_trades st now
      = (st.active_trades.filter
          (fun t => now > t.entry_time + (t.duration : ℚ) * (11/10))).foldl
          (TradeExecutor.sweepStep now) st := rfl
  have hgone : ∀ u ∈ (TradeExecutor.check_expired_trades st now).active_trades,
      u.trade_id ≠ t0.trade_id := by
    rw [hch]
    exact sweep_removes now _ st t0 hexpired hok
  refine ⟨hgone, ?_, ?_, ?_⟩
  · rw [hch]
    exact sweep_adds now _ st t0 hexpired hok
  · rw [hch, sweep_countP]
    have hone : (st.active_trades.filter
        (fun t => now > t.entry_time + (t.duration : ℚ) * (11/10))).countP
        (fun x => (x.trade_id == t0.trade_id) && contractOk x) = 1 := by
      have hle : (st.active_trades.filter
          (fun t => now > t.entry_time + (t.duration : ℚ) * (11/10))).countP
          (fun x => (x.trade_id == t0.trade_id) && contractOk x)
          ≤ st.active_trades.countP (fun u => u.trade_id == t0.trade_id) := by
        rw [List.countP_filter]
        exact List.countP_mono_left (fun a _ h => by
          have := Bool.and_elim_left (Bool.and_elim_left h)
          exact this)
      have hpos : 0 < (st.active_trades.filter
          (fun t => now > t.entry_time + (t.duration : ℚ) * (11/10))).countP
          (fun x => (x.trade_id == t0.trade_id) && contractOk x) :=
        List.countP_pos_iff.mpr ⟨t0, hexpired, by simp [hok]⟩
      omega
    rw [hone]
  · intro now2
    have hzero : ((TradeExecutor.check_expired_trades st now).active_trades.filter
        (fun t => now2 > t.entry_time + (t.duration : ℚ) * (11/10))).countP
        (fun x => (x.trade_id == t0.trade_id) && contractOk x) = 0 := by
      refine List.countP_eq_zero.mpr ?_
      intro a ha hpa
      have hmem2 : a ∈ (TradeExecutor.check_expired_trades st now).active_trades :=
        (List.mem_filter.mp ha).1
      have hne := hgone a hmem2
      have : a.trade_id == t0.trade_id := Bool.and_elim_left hpa
      exact hne (by simpa using this)
    have hch2 : TradeExecutor.check_expired_trades
        (TradeExecutor.check_expired_trades st now) now2
        = ((TradeExecutor.check_expired_trades st now).active_trades.filter
            (fun t => now2 > t.entry_time + (t.duration : ℚ) * (11/10))).foldl
            (TradeExecutor.sweepStep now2)
            (TradeExecutor.check_expired_trades st now) := rfl
    rw [hch2, sweep_countP, hzero]
    exact Nat.add_zero _

/-- An ACTIVE order that never received a venue contract id. -/
def tradeNoCid : Trade :=
  { trade_id := 1, signal := sigC3, contract_type := SignalType.CALL, stake := 1,
    duration := 5, entry_price := 100, entry_time := 0, status := TradeStatus.ACTIVE }

/-- An executor with that one active order. -/
def exSt7 : ExecutorState :=
  { risk := sC3, active_trades := [tradeNoCid], completed_trades := [],
    trade_counter := 1, total_executions := 1, successful_executions := 1,
    failed_executions := 0, rejected_executions := 0,
    contract_subscriptions := [], recorded_results := [] }

/-- Claim C7 counterexample: at time 100 the order is far past its expiry
deadline (0 + 5 × 1.1 = 5.5), yet a sweep run leaves it in the active set,
still ACTIVE, and completes nothing — the loop body is guarded by
`if trade.contract_id:` and the order has none, so the claim's "moves that
order to status ERROR, removes it from the active set and appends it to
the completed set" is false for it. -/
theorem c7_counterexample :
    (100 : ℚ) > tradeNoCid.entry_time + (tradeNoCid.duration : ℚ) * (11/10) ∧
    (TradeExecutor.check_expired_trades exSt7 100).active_trades = [tradeNoCid] ∧
    (TradeExecutor.check_expired_trades exSt7 100).completed_trades = [] ∧
    tradeNoCid.status = TradeStatus.ACTIVE := by
  refine ⟨by decide, by decide, by decide, by decide⟩

/-- The C7 witness order: identical but registered with contract id 77. -/
def tradeCid : Trade :=
  { tradeNoCid with trade_id := 2, contract_id := some 77 }

/-- An executor with both orders active. -/
def exSt7b : ExecutorState :=
  { exSt7 with active_trades := [tradeNoCid, tradeCid],
               contract_subscriptions := [(77, 2)] }

/-- Claim C7 (amended) witness: the contract-carrying order is swept
exactly once. -/
theorem c7_amended_witness :
    ((100 : ℚ) > tradeCid.entry_time + (tradeCid.duration : ℚ) * (11/10)) ∧
    ({ tradeCid with status := TradeStatus.ERROR, exit_time := some 100 }
        ∈ (TradeExecutor.check_expired_trades exSt7b 100).completed_trades) ∧
    ((TradeExecutor.check_expired_trades exSt7b 100).completed_trades.countP
        (fun u => u.trade_id == tradeCid.trade_id)
      = exSt7b.completed_trades.countP (fun u => u.trade_id == tradeCid.trade_id) + 1) := by
  have h := c7_amended exSt7b tradeCid 77 100 (by decide) (by decide) (by decide)
    (by decide) (by decide)
  exact ⟨by decide, h.2.1, h.2.2.1⟩

/-! ## Claim C5 -/

/-- Deleting a key from an association list makes later lookups of that
key fail. -/
theorem lookup_filter_ne_self (l : List (Nat × Nat)) (cid : Nat) :
    (l.filter (fun q => q.1 ≠ cid)).lookup cid = none := by
  induction l with
  | nil => rfl
  | cons hd tl ih =>
    rcases hd with ⟨k, v⟩
    by_cases h : k = cid
    · simp only [List.filter_cons]
      rw [if_neg (by simp [h])]
      exact ih
    · simp only [List.filter_cons]
      rw [if_pos (by simp [h])]
      rw [List.lookup_cons]
      have hbk : (cid == k) = false := by simp [Ne.symm h]
      simp only [hbk]
      exact ih

/-- The finalized copy of a trade settled by a push carrying sell spot
`ss`, sell price `sp` and buy price `bp` (P&L `sp - bp`; WON exactly on
strictly positive P&L). -/
def settledCopy (tr : Trade) (now ss sp bp : ℚ) : Trade :=
  { tr with
      exit_time := some now
      exit_price := some ss
      profit_loss := some (sp - bp)
      status := if sp - bp > 0 then TradeStatus.WON else TradeStatus.LOST }

/-- The executor state after finalizing `tr` (contract `cid`): active dict
without the trade, mapping entry deleted, settled copy appended to the
completed list, outcome recorded with the risk manager exactly once. -/
def settledState (st : ExecutorState) (tr : Trade) (cid : Nat)
    (now ss sp bp : ℚ) : ExecutorState :=
  { st with
      active_trades := st.active_trades.filter (fun u => u.trade_id ≠ tr.trade_id)
      contract_subscriptions := st.contract_subscriptions.filter (fun q => q.1 ≠ cid)
      completed_trades := st.completed_trades ++ [settledCopy tr now ss sp bp]
      risk := RiskManager.record_trade_result st.risk (sp - bp)
        (decide (sp - bp > 0)) now
      recorded_results := st.recorded_results ++ [(sp - bp, decide (sp - bp > 0))] }

/-- Claim C5: a settled push (`is_sold`, carrying sell spot, sell price
and buy price) for a registered, active trade finalizes it exactly once:
realized P&L is `sell_price - buy_price`, the status becomes WON exactly
when the P&L is strictly positive and LOST otherwise, the trade leaves the
active dict and joins the completed list, the contract-id mapping entry is
deleted, and `record_trade_result` is called once with the outcome; a
replay of the same push then changes nothing (and records nothing). -/
theorem c5_settled_push (st : ExecutorState) (push : ContractPush)
    (cid tid : Nat) (tr : Trade) (ss sp bp now : ℚ)
    (hc0 : cid ≠ 0)
    (hpc : push.contract_id = some cid)
    (hcs : push.current_spot = none)
    (hsold : push.is_sold = true)
    (hss : push.sell_spot = some ss)
    (hsp : push.sell_price = some sp)
    (hbp : push.buy_price = some bp)
    (hlook : st.contract_subscriptions.lookup cid = some tid)
    (hfind : st.active_trades.find? (fun u => u.trade_id == tid) = some tr)
    (htrc : tr.contract_id = some cid) :
    TradeExecutor.handle_contract_update st push now
      = settledState st tr cid now ss sp bp ∧
    (∀ now2 : ℚ, TradeExecutor.handle_contract_update
        (TradeExecutor.handle_contract_update st push now) push now2
      = TradeExecutor.handle_contract_update st push now) := by
  have h1 : TradeExecutor.handle_contract_update st push now
      = settledState st tr cid now ss sp bp := by
    unfold TradeExecutor.handle_contract_update
    simp only [hpc]
    rw [if_neg hc0]
    simp only [hlook, hfind, hcs, hsold, eq_self_iff_true, if_true]
    unfold TradeExecutor.finalize_trade
    simp only [hss, hsp, hbp, Option.getD_some, htrc]
    rw [if_pos hc0]
    simp only [settledState, settledCopy, htrc]
  refine ⟨h1, ?_⟩
  intro now2
  rw [h1]
  unfold TradeExecutor.handle_contract_update
  simp only [hpc]
  rw [if_neg hc0]
  have hlk : (settledState st tr cid now ss sp bp).contract_subscriptions.lookup cid
      = none := lookup_filter_ne_self st.contract_subscriptions cid
  simp only [hlk]

/-- An ACTIVE trade registered under venue contract id 77. -/
def tradeC5 : Trade :=
  { trade_id := 2, signal := sigC3, contract_type := SignalType.CALL, stake := 1,
    duration := 5, entry_price := 100, entry_time := 0, status := TradeStatus.ACTIVE,
    contract_id := some 77 }

/-- An executor tracking that trade. -/
def exC5 : ExecutorState :=
  { risk := sC3, active_trades := [tradeC5], completed_trades := [],
    trade_counter := 2, total_executions := 1, successful_executions := 1,
    failed_executions := 0, rejected_executions := 0,
    contract_subscriptions := [(77, 2)], recorded_results := [] }

/-- A settled push for contract 77: sold at price 19/10 against a buy
price of 1, so the realized P&L is 9/10 and the trade is WON. -/
def pushC5 : ContractPush :=
  { contract_id := some 77, current_spot := none, is_sold := true,
    sell_spot := some 101, sell_price := some (19/10), buy_price := some 1 }

/-- Claim C5 witness: the concrete settled push finalizes the registered
trade and a replay at a later time changes nothing. -/
theorem c5_settled_push_witness :
    TradeExecutor.handle_contract_update exC5 pushC5 50
      = settledState exC5 tradeC5 77 50 101 (19/10) 1 ∧
    TradeExecutor.handle_contract_update
        (TradeExecutor.handle_contract_update exC5 pushC5 50) pushC5 60
      = TradeExecutor.handle_contract_update exC5 pushC5 50 :=
  ⟨(c5_settled_push exC5 pushC5 77 2 tradeC5 101 (19/10) 1 50
      (by decide) rfl rfl rfl rfl rfl rfl rfl rfl rfl).1,
   (c5_settled_push exC5 pushC5 77 2 tradeC5 101 (19/10) 1 50
      (by decide) rfl rfl rfl rfl rfl rfl rfl rfl rfl).2 60⟩

/-! ## Claim C8 -/

/-- Shape of a `send_request` call: either it allocates the fresh
correlation id `counter + 1` and registers it, or (not connected /
rate-limited) it allocates nothing and leaves the pending table and the
counter untouched. -/
theorem send_request_shape (s : ClientState) (now : ℚ) :
    ((DerivWebSocketClient.send_request s now).1
        = SendOutcome.sent (s.request_id_counter + 1) ∧
     (DerivWebSocketClient.send_request s now).2.request_id_counter
        = s.request_id_counter + 1 ∧
     (DerivWebSocketClient.send_request s now).2.pending_requests
        = s.pending_requests ++ [s.request_id_counter + 1]) ∨
    (((DerivWebSocketClient.send_request s now).1 = SendOutcome.notConnected ∨
      (DerivWebSocketClient.send_request s now).1 = SendOutcome.rateLimited) ∧
     (DerivWebSocketClient.send_request s now).2.request_id_counter
        = s.request_id_counter ∧
     (DerivWebSocketClient.send_request s now).2.pending_requests
        = s.pending_requests) := by
  unfold DerivWebSocketClient.send_request
  by_cases h1 : ¬ s.connected ∨ ¬ s.hasWebsocket
  · rw [if_pos h1]
    exact Or.inr ⟨Or.inl rfl, rfl, rfl⟩
  · rw [if_neg h1]
    by_cases h2 : ¬ (s.rate_limiter.can_proceed now).1
    · rw [if_pos h2]
      exact Or.inr ⟨Or.inr rfl, rfl, rfl⟩
    · rw [if_neg h2]
      exact Or.inl ⟨rfl, rfl, rfl⟩

/-- A frame whose correlation id is pending pops exactly that entry. -/
theorem handle_message_hit (s : ClientState) (rid : Nat)
    (h : rid ∈ s.pending_requests) :
    DerivWebSocketClient.handle_message s rid
      = ({ s with pending_requests := s.pending_requests.erase rid }, some rid) := by
  unfold DerivWebSocketClient.handle_message
  rw [if_pos h]

/-- A frame whose correlation id is not pending completes nothing and
changes nothing. -/
theorem handle_message_miss (s : ClientState) (rid : Nat)
    (h : rid ∉ s.pending_requests) :
    DerivWebSocketClient.handle_message s rid = (s, none) := by
  unfold DerivWebSocketClient.handle_message
  rw [if_neg h]

/-- Trace invariant: allocated correlation ids are strictly increasing and
bounded by the counter; the pending table holds allocated, never-completed
ids without duplicates; every completion (by frame or timeout) is of an
allocated id and no id completes twice. -/
def WsInv (ts : WsTrace) : Prop :=
  ts.sentIds.Pairwise (· < ·) ∧
  (∀ i ∈ ts.sentIds, i ≤ ts.client.request_id_counter) ∧
  (∀ i ∈ ts.client.pending_requests, i ∈ ts.sentIds) ∧
  ts.client.pending_requests.Nodup ∧
  (ts.done.map Prod.fst).Nodup ∧
  (∀ i ∈ ts.done.map Prod.fst, i ∈ ts.sentIds) ∧
  (∀ i ∈ ts.client.pending_requests, i ∉ ts.done.map Prod.fst)

/-- Full case analysis of one `send_request` call. -/
theorem send_request_cases (s : ClientState) (now : ℚ) :
    DerivWebSocketClient.send_request s now = (SendOutcome.notConnected, s) ∨
    DerivWebSocketClient.send_request s now
      = (SendOutcome.rateLimited,
         { s with rate_limiter := (s.rate_limiter.can_proceed now).2 }) ∨
    DerivWebSocketClient.send_request s now
      = (SendOutcome.sent (s.request_id_counter + 1),
         { s with
            request_id_counter := s.request_id_counter + 1,
            pending_requests := s.pending_requests ++ [s.request_id_counter + 1],
            rate_limiter := ((s.rate_limiter.can_proceed now).2).record_call now }) := by
  unfold DerivWebSocketClient.send_request
  by_cases h1 : ¬ s.connected ∨ ¬ s.hasWebsocket
  · rw [if_pos h1]
    exact Or.inl rfl
  · rw [if_neg h1]
    by_cases h2 : ¬ (s.rate_limiter.can_proceed now).1
    · rw [if_pos h2]
      exact Or.inr (Or.inl rfl)
    · rw [if_neg h2]
      exact Or.inr (Or.inr rfl)

/-- One instrumented step preserves the trace invariant. -/
theorem stepEvent_preserves (ts : WsTrace) (e : WsEvent) (h : WsInv ts) :
    WsInv (stepEvent ts e) := by
  obtain ⟨hpai, hbnd, hsub, hnd, hdnd, hdsub, hdisj⟩ := h
  cases e with
  | sendEv now =>
    rcases send_request_cases ts.client now with hc | hc | hc
    · simp only [stepEvent, hc]
      exact ⟨hpai, hbnd, hsub, hnd, hdnd, hdsub, hdisj⟩
    · simp only [stepEvent, hc]
      exact ⟨hpai, hbnd, hsub, hnd, hdnd, hdsub, hdisj⟩
    · simp only [stepEvent, hc]
      set c := ts.client.request_id_counter with hcdef
      refine ⟨?_, ?_, ?_, ?_, hdnd, ?_, ?_⟩
      · refine List.pairwise_append.mpr ⟨hpai, List.pairwise_singleton _ _, ?_⟩
        intro a ha b hb
        rw [List.mem_singleton.mp hb]
        exact Nat.lt_succ_of_le (hbnd a ha)
      · intro i hi
        rcases List.mem_append.mp hi with hi | hi
        · exact Nat.le_succ_of_le (hbnd i hi)
        · rw [List.mem_singleton.mp hi]
      · intro i hi
        rcases List.mem_append.mp hi with hi | hi
        · exact List.mem_append_left _ (hsub i hi)
        · exact List.mem_append_right _ hi
      · refine List.nodup_append.mpr ⟨hnd, List.nodup_singleton _, ?_⟩
        intro a ha hb
        rw [List.mem_singleton.mp hb] at ha
        have := hbnd _ (hsub _ ha)
        omega
      · intro i hi
        exact List.mem_append_left _ (hdsub i hi)
      · intro i hi
        rcases List.mem_append.mp hi with hi | hi
        · exact hdisj i hi
        · rw [List.mem_singleton.mp hi]
          intro hmem
          have := hbnd _ (hdsub _ hmem)
          omega
  | frameEv rid =>
    by_cases hmem : rid ∈ ts.client.pending_requests
    · simp only [stepEvent, handle_message_hit ts.client rid hmem]
      refine ⟨hpai, hbnd, ?_, List.Nodup.erase rid hnd, ?_, ?_, ?_⟩
      · intro i hi
        exact hsub i (List.erase_subset _ _ hi)
      · simp only [List.map_append, List.map_cons, List.map_nil]
        refine List.nodup_append.mpr ⟨hdnd, List.nodup_singleton _, ?_⟩
        intro a ha hb
        rw [List.mem_singleton.mp hb] at ha
        exact hdisj rid hmem ha
      · simp only [List.map_append, List.map_cons, List.map_nil]
        intro i hi
        rcases List.mem_append.mp hi with hi | hi
        · exact hdsub i hi
        · rw [List.mem_singleton.mp hi]
          exact hsub rid hmem
      · simp only [List.map_append, List.map_cons, List.map_nil]
        intro i hi
        obtain ⟨hne, hip⟩ := (List.Nodup.mem_erase_iff hnd).mp hi
        intro hcon
        rcases List.mem_append.mp hcon with hcon | hcon
        · exact hdisj i hip hcon
        · exact hne (List.mem_singleton.mp hcon)
    · simp only [stepEvent, handle_message_miss ts.client rid hmem]
      exact ⟨hpai, hbnd, hsub, hnd, hdnd, hdsub, hdisj⟩
  | timeoutEv rid =>
    by_cases hmem : rid ∈ ts.client.pending_requests
    · simp only [stepEvent]
      rw [if_pos hmem]
      refine ⟨hpai, hbnd, ?_, List.Nodup.erase rid hnd, ?_, ?_, ?_⟩
      · intro i hi
        exact hsub i (List.erase_subset _ _ hi)
      · simp only [List.map_append, List.map_cons, List.map_nil]
        refine List.nodup_append.mpr ⟨hdnd, List.nodup_singleton _, ?_⟩
        intro a ha hb
        rw [List.mem_singleton.mp hb] at ha
        exact hdisj rid hmem ha
      · simp only [List.map_append, List.map_cons, List.map_nil]
        intro i hi
        rcases List.mem_append.mp hi with hi | hi
        · exact hdsub i hi
        · rw [List.mem_singleton.mp hi]
          exact hsub rid hmem
      · simp only [List.map_append, List.map_cons, List.map_nil]
        intro i hi
        obtain ⟨hne, hip⟩ := (List.Nodup.mem_erase_iff hnd).mp hi
        intro hcon
        rcases List.mem_append.mp hcon with hcon | hcon
        · exact hdisj i hip hcon
        · exact hne (List.mem_singleton.mp hcon)
    · simp only [stepEvent]
      rw [if_neg hmem]
      have herase : ts.client.pending_requests.erase rid = ts.client.pending_requests :=
        List.erase_of_not_mem hmem
      refine ⟨hpai, hbnd, ?_, ?_, hdnd, hdsub, ?_⟩
      · show ∀ i ∈ ts.client.pending_requests.erase rid, i ∈ ts.sentIds
        rw [herase]; exact hsub
      · show (ts.client.pending_requests.erase rid).Nodup
        rw [herase]; exact hnd
      · show ∀ i ∈ ts.client.pending_requests.erase rid, i ∉ ts.done.map Prod.fst
        rw [herase]; exact hdisj

/-- The trace invariant holds along every event sequence from the fresh
client. -/
theorem runTrace_inv (es : List WsEvent) : WsInv (runTrace es) := by
  have h0 : WsInv initTrace := by
    refine ⟨List.Pairwise.nil, ?_, ?_, List.nodup_nil, ?_, ?_, ?_⟩ <;>
      simp [initTrace, initClient]
  have hfold : ∀ (l : List WsEvent) (ts : WsTrace), WsInv ts →
      WsInv (l.foldl stepEvent ts) := by
    intro l
    induction l with
    | nil => intro ts h; exact h
    | cons hd tl ih => intro ts h; exact ih _ (stepEvent_preserves ts hd h)
  exact hfold es initTrace h0

/-- Claim C8: along every interleaving of `send_request` calls, response
frames and timeouts from a fresh client, the allocated correlation ids are
strictly increasing (hence process-lifetime unique); no request is ever
completed twice (the completion log has no duplicate id) and every
completion is of a previously allocated id; a response frame completes
exactly the pending request carrying its own correlation id, and a frame
whose id matches no pending request completes nothing and leaves the
client unchanged. -/
theorem c8_correlation (es : List WsEvent) :
    (runTrace es).sentIds.Pairwise (· < ·) ∧
    ((runTrace es).done.map Prod.fst).Nodup ∧
    (∀ i ∈ (runTrace es).done.map Prod.fst, i ∈ (runTrace es).sentIds) ∧
    (∀ (c : ClientState) (rid : Nat), rid ∈ c.pending_requests →
      DerivWebSocketClient.handle_message c rid
        = ({ c with pending_requests := c.pending_requests.erase rid }, some rid)) ∧
    (∀ (c : ClientState) (rid : Nat), rid ∉ c.pending_requests →
      DerivWebSocketClient.handle_message c rid = (c, none)) :=
  ⟨(runTrace_inv es).1, (runTrace_inv es).2.2.2.2.1, (runTrace_inv es).2.2.2.2.2.1,
   handle_message_hit, handle_message_miss⟩

/-- Claim C8 witness: a concrete interleaving with out-of-order responses,
a duplicate frame and a timeout; plus the frame-matching equations at a
concrete client. -/
theorem c8_correlation_witness :
    (runTrace [WsEvent.sendEv 0, WsEvent.sendEv 1, WsEvent.frameEv 2,
        WsEvent.frameEv 2, WsEvent.sendEv 2, WsEvent.timeoutEv 1,
        WsEvent.frameEv 1, WsEvent.frameEv 3]).sentIds.Pairwise (· < ·) ∧
    ((runTrace [WsEvent.sendEv 0, WsEvent.sendEv 1, WsEvent.frameEv 2,
        WsEvent.frameEv 2, WsEvent.sendEv 2, WsEvent.timeoutEv 1,
        WsEvent.frameEv 1, WsEvent.frameEv 3]).done.map Prod.fst).Nodup ∧
    ((1 : Nat) ∈ clientTwoPending.pending_requests ∧
      DerivWebSocketClient.handle_message clientTwoPending 1
        = ({ clientTwoPending with
              pending_requests := clientTwoPending.pending_requests.erase 1 },
           some 1)) ∧
    ((9 : Nat) ∉ clientTwoPending.pending_requests ∧
      DerivWebSocketClient.handle_message clientTwoPending 9
        = (clientTwoPending, none)) :=
  ⟨(c8_correlation _).1, (c8_correlation _).2.1,
   ⟨by decide, (c8_correlation []).2.2.2.1 clientTwoPending 1 (by decide)⟩,
   ⟨by decide, (c8_correlation []).2.2.2.2 clientTwoPending 9 (by decide)⟩⟩
